import Mathlib

/-!
# Todo list domain service

A shallow embedding of `internal/app/mga/todo/list.go` (package `todo`): the `Todo`
record, the `List` service with its three collaborators (`IDGenerator`, `Store`,
`Events`) and the operations `CreateTodo`, `ListTodos` and `MarkAsDone`.

Modelling conventions.

* A Go `error` value is an `Option Error`; `none` is `nil`.
* A collaborator is an interface value with hidden state.  Each interface method is a
  function from the collaborator's state to its results and its next state.  The three
  collaborators own separate states (`World.idgenerator`, `World.store`, `World.events`).
* `World.calls` records, in order, every interface method the service invokes, with
  its arguments.  It is how "calls `Store.Store` never / once / twice" is stated.
* The `context.Context` argument carries no data the service reads and is dropped.

Further sections embed the transport adapters of package `tododriver` (gRPC encoders,
GraphQL resolvers), the wire format of the `MarkedAsDone` event and `Config.Validate`
of `cmd/config.go`.  All definitions come first; the theorems follow.
-/

set_option linter.dupNamespace false

/-- A Go slice, as the list of its elements. -/
abbrev Slice (α : Type) := List α

namespace todo

/-- Todo is a note describing a task to be done. -/
structure Todo where
  ID : String
  Text : String
  Done : Bool
deriving DecidableEq, Repr

/-- MarkedAsDone event is triggered when a todo gets marked as done. -/
structure MarkedAsDone where
  ID : String
deriving DecidableEq, Repr

/-- Non-nil Go `error` values.  `NotFoundError` is the struct of `list.go`;
`withMessage` is the wrapper built by `errors.WithMessage`; `other` stands for any
other error value, with its `Error()` text and whether it implements
`IsBusinessError()` returning true. -/
inductive Error where
  | NotFoundError (ID : String)
  | other (msg : String) (business : Bool)
  | withMessage (cause : Error) (msg : String)
deriving DecidableEq, Repr

/-- Error implements the error interface (`"todo not found"` for `NotFoundError`,
`msg + ": " + cause.Error()` for a `withMessage` wrapper). -/
def Error.Error : todo.Error → String
  | .NotFoundError _ => "todo not found"
  | .other msg _ => msg
  | .withMessage cause msg => msg ++ ": " ++ cause.Error

/-- IsBusinessError as the transport layer recovers it: the first error of the
unwrap chain that implements `IsBusinessError()` decides; a `withMessage` wrapper does
not implement it and is looked through. -/
def Error.IsBusinessError : todo.Error → Bool
  | .NotFoundError _ => true
  | .other _ business => business
  | .withMessage cause _ => cause.IsBusinessError

end todo

namespace errors

open todo

/-- WithMessage annotates err with a new message; if err is nil, WithMessage returns nil. -/
def WithMessage (err : Option Error) (message : String) : Option Error :=
  match err with
  | none => none
  | some e => some (Error.withMessage e message)

/-- Unwrap returns the error wrapped directly by err, nil if err wraps nothing. -/
def Unwrap : Option Error → Option Error
  | some (Error.withMessage cause _) => some cause
  | _ => none

/-- The root of a non-nil error's chain. -/
def rootCause : Error → Error
  | .withMessage cause _ => rootCause cause
  | e => e

/-- Cause returns the last error (root cause) in an err's chain. -/
def Cause (err : Option Error) : Option Error :=
  err.map rootCause

end errors

namespace todo

/-- IDGenerator generates a new ID. -/
structure IDGenerator (γ : Type) where
  Generate : γ → (String × Option Error) × γ

/-- Store stores todos. -/
structure Store (σ : Type) where
  Store : Todo → σ → Option Error × σ
  All : σ → (Slice Todo × Option Error) × σ
  Get : String → σ → (Todo × Option Error) × σ

/-- Events dispatches todo events. -/
structure Events (ε : Type) where
  MarkedAsDone : MarkedAsDone → ε → Option Error × ε

/-- One invocation of a collaborator method, with its arguments. -/
inductive Call where
  | Generate
  | Store (todo : Todo)
  | All
  | Get (id : String)
  | MarkedAsDone (event : MarkedAsDone)
deriving DecidableEq, Repr

/-- The state the service runs against: the state of each collaborator and the log of
collaborator calls made so far (oldest first). -/
structure World (γ σ ε : Type) where
  idgenerator : γ
  store : σ
  events : ε
  calls : Slice Call
deriving DecidableEq

/-- List manages a list of todos. -/
structure List (γ σ ε : Type) where
  idgenerator : IDGenerator γ
  store : Store σ
  events : Events ε

variable {γ σ ε : Type}

/-- NewList returns a new todo list. -/
def NewList (id : IDGenerator γ) (todos : Store σ) (events : Events ε) : List γ σ ε :=
  { idgenerator := id, store := todos, events := events }

/-- The call `l.idgenerator.Generate()`. -/
def List.callGenerate (l : List γ σ ε) (w : World γ σ ε) :
    (String × Option Error) × World γ σ ε :=
  let r := l.idgenerator.Generate w.idgenerator
  (r.1, { w with idgenerator := r.2, calls := w.calls ++ [Call.Generate] })

/-- The call `l.store.Store(ctx, todo)`. -/
def List.callStore (l : List γ σ ε) (todo : Todo) (w : World γ σ ε) :
    Option Error × World γ σ ε :=
  let r := l.store.Store todo w.store
  (r.1, { w with store := r.2, calls := w.calls ++ [Call.Store todo] })

/-- The call `l.store.All(ctx)`. -/
def List.callAll (l : List γ σ ε) (w : World γ σ ε) :
    (Slice Todo × Option Error) × World γ σ ε :=
  let r := l.store.All w.store
  (r.1, { w with store := r.2, calls := w.calls ++ [Call.All] })

/-- The call `l.store.Get(ctx, id)`. -/
def List.callGet (l : List γ σ ε) (id : String) (w : World γ σ ε) :
    (Todo × Option Error) × World γ σ ε :=
  let r := l.store.Get id w.store
  (r.1, { w with store := r.2, calls := w.calls ++ [Call.Get id] })

/-- The call `l.events.MarkedAsDone(ctx, event)`. -/
def List.callMarkedAsDone (l : List γ σ ε) (event : MarkedAsDone) (w : World γ σ ε) :
    Option Error × World γ σ ε :=
  let r := l.events.MarkedAsDone event w.events
  (r.1, { w with events := r.2, calls := w.calls ++ [Call.MarkedAsDone event] })

/-- CreateTodo adds a new todo to the list. -/
def List.CreateTodo (l : List γ σ ε) (text : String) (w : World γ σ ε) :
    (String × Option Error) × World γ σ ε :=
  match l.callGenerate w with
  | ((_, some err), w1) => (("", some err), w1)
  | ((id, none), w1) =>
    let todo : Todo := { ID := id, Text := text, Done := false }
    match l.callStore todo w1 with
    | (err, w2) => ((id, err), w2)

/-- ListTodos returns the list of todos. -/
def List.ListTodos (l : List γ σ ε) (w : World γ σ ε) :
    (Slice Todo × Option Error) × World γ σ ε :=
  l.callAll w

/-- MarkAsDone marks a todo as done. -/
def List.MarkAsDone (l : List γ σ ε) (id : String) (w : World γ σ ε) :
    Option Error × World γ σ ε :=
  match l.callGet id w with
  | ((_, some err), w1) => (errors.WithMessage (some err) "failed to mark todo as done", w1)
  | ((todo, none), w1) =>
    let todo : Todo := { todo with Done := true }
    match l.callStore todo w1 with
    | (some err, w2) => (errors.WithMessage (some err) "failed to mark todo as done", w2)
    | (none, w2) =>
      let event : MarkedAsDone := { ID := todo.ID }
      match l.callMarkedAsDone event w2 with
      | (some err, w3) => (errors.WithMessage (some err) "failed to mark todo as done", w3)
      | (none, w3) => (none, w3)

/-! ## Collaborator contracts and reference collaborators -/

/-- Store contract, keyed by ID: after a successful `Store(todo)`, `Get(todo.ID)`
returns exactly that todo and no error. -/
def Store.StoreThenGet (st : todo.Store σ) : Prop :=
  ∀ (todo : Todo) (s : σ),
    (st.Store todo s).1 = none → (st.Get todo.ID (st.Store todo s).2).1 = (todo, none)

/-- Store contract: after a successful `Store(todo)`, `All` succeeds and lists that todo. -/
def Store.StoreThenAll (st : todo.Store σ) : Prop :=
  ∀ (todo : Todo) (s : σ),
    (st.Store todo s).1 = none →
      (st.All (st.Store todo s).2).1.2 = none ∧ todo ∈ (st.All (st.Store todo s).2).1.1

/-- Store contract: storing back the todo that `Get` has just returned under its own ID
leaves the store in the state it had before the `Get`. -/
def Store.GetThenStore (st : todo.Store σ) : Prop :=
  ∀ (todo : Todo) (s : σ),
    (st.Get todo.ID s).1 = (todo, none) → (st.Store todo (st.Get todo.ID s).2).2 = s

/-- The events a call log shows as handed to `Events.MarkedAsDone`, oldest first. -/
def dispatched : Slice Call → Slice MarkedAsDone
  | [] => []
  | Call.MarkedAsDone event :: cs => event :: dispatched cs
  | _ :: cs => dispatched cs

/-- The todos a call log shows as written with `Store.Store`, oldest first. -/
def stored : Slice Call → Slice Todo
  | [] => []
  | Call.Store todo :: cs => todo :: stored cs
  | _ :: cs => stored cs

/-- Modelled from the spec: insertion into the reference in-memory Store, whose source
file is not under src/.  The store is a collection keyed by ID kept in insertion order;
storing under an ID already present replaces that entry. -/
def InMemoryStore.put (todo : Todo) : Slice Todo → Slice Todo
  | [] => [todo]
  | t :: ts => if t.ID = todo.ID then todo :: ts else t :: InMemoryStore.put todo ts

/-- Modelled from the spec: lookup by ID in the reference in-memory Store, whose source
file is not under src/. -/
def InMemoryStore.lookup (id : String) : Slice Todo → Option Todo
  | [] => none
  | t :: ts => if t.ID = id then some t else InMemoryStore.lookup id ts

/-- Modelled from the spec: the reference in-memory Store (`NewInMemoryStore`), whose
source file is not under src/.  `Store` always succeeds, `All` enumerates in insertion
order, and `Get` on an unknown ID fails with `NotFoundError` carrying that ID. -/
def NewInMemoryStore : Store (Slice Todo) where
  Store todo s := (none, InMemoryStore.put todo s)
  All s := ((s, none), s)
  Get id s :=
    match InMemoryStore.lookup id s with
    | some t => ((t, none), s)
    | none => (({ ID := "", Text := "", Done := false }, some (Error.NotFoundError id)), s)

/-- Modelled from the spec: the error of the read-only Store wrapper, whose source file
is not under src/.  The spec fixes only that it is not a business error; the text is a
placeholder on which nothing depends. -/
def ReadOnlyStoreError : Error := Error.other "read-only store cannot be modified" false

/-- Modelled from the spec: the read-only Store wrapper (`NewReadOnlyStore`), whose
source file is not under src/.  It rejects every `Store` without touching the wrapped
store and passes `All` and `Get` through. -/
def NewReadOnlyStore (store : Store σ) : Store σ where
  Store _ s := (some ReadOnlyStoreError, s)
  All s := store.All s
  Get id s := store.Get id s

/-- The events stub of `todolist_test.go`: it keeps the last event and returns nil. -/
def todoEventsStub : Events MarkedAsDone where
  MarkedAsDone event _ := (none, event)

end todo

namespace idgen

/-- The constant generator of the `idgen` library: it always returns the same ID. -/
def NewConstantGenerator (id : String) : todo.IDGenerator Unit where
  Generate g := ((id, none), g)

end idgen

namespace todo

/-! ## Test doubles and scenarios of `todolist_test.go` -/

/-- A generator that fails with `e` on every call. -/
def failingGenerator (e : Error) : IDGenerator Unit where
  Generate g := (("", some e), g)

/-- A publisher that fails with `e` on every call and delivers nothing. -/
def failingEvents (e : Error) : Events MarkedAsDone where
  MarkedAsDone _ s := (some e, s)

/-- The list under test: constant generator `"id"`, in-memory store, events stub. -/
def testList : List Unit (Slice Todo) MarkedAsDone :=
  NewList (idgen.NewConstantGenerator "id") NewInMemoryStore todoEventsStub

/-- The list under test over a read-only wrapper of the in-memory store. -/
def readOnlyTestList : List Unit (Slice Todo) MarkedAsDone :=
  NewList (idgen.NewConstantGenerator "id") (NewReadOnlyStore NewInMemoryStore) todoEventsStub

/-- A fresh world: empty store, zero-valued events stub, no call made yet. -/
def emptyWorld : World Unit (Slice Todo) MarkedAsDone :=
  { idgenerator := (), store := [], events := { ID := "" }, calls := [] }

/-- The world of `TestTodoList_MarkAsDone`: the store holds the todo "Do me" under "id". -/
def doMeWorld : World Unit (Slice Todo) MarkedAsDone :=
  { idgenerator := (), store := [{ ID := "id", Text := "Do me", Done := false }],
    events := { ID := "" }, calls := [] }

end todo

namespace todo

variable {γ σ ε : Type}

/-! ## Sequences of operations, the keyed-collection contract, `NotFoundError` -/

/-- A domain service operation with its argument. -/
inductive Op where
  | CreateTodo (text : String)
  | ListTodos
  | MarkAsDone (id : String)
deriving DecidableEq, Repr

/-- The world one operation of the service leaves behind (its results dropped). -/
def List.step (l : List γ σ ε) (op : Op) (w : World γ σ ε) : World γ σ ε :=
  match op with
  | Op.CreateTodo text => (l.CreateTodo text w).2
  | Op.ListTodos => (l.ListTodos w).2
  | Op.MarkAsDone id => (l.MarkAsDone id w).2

/-- The world a sequence of operations leaves behind, run first to last. -/
def List.steps (l : List γ σ ε) : Slice Op → World γ σ ε → World γ σ ε
  | [], w => w
  | op :: ops, w => List.steps l ops (l.step op w)

/-- Store contract of a collection keyed by ID, in terms of what `Get` returns:
`Get(id)` returns only todos carrying that ID; `Get` and `All` do not change what `Get`
returns; `Store(todo)` does not change what `Get` returns for another ID; after a
successful `Store(todo)`, `Get(todo.ID)` returns that todo; a failed `Store` changes
nothing `Get` returns. -/
structure Store.Keyed (st : todo.Store σ) : Prop where
  get_id : ∀ (id : String) (s : σ) (t : Todo), (st.Get id s).1 = (t, none) → t.ID = id
  get_get : ∀ (id id' : String) (s : σ), (st.Get id (st.Get id' s).2).1 = (st.Get id s).1
  all_get : ∀ (id : String) (s : σ), (st.Get id (st.All s).2).1 = (st.Get id s).1
  store_get_ne : ∀ (todo : Todo) (id : String) (s : σ),
    todo.ID ≠ id → (st.Get id (st.Store todo s).2).1 = (st.Get id s).1
  store_get : st.StoreThenGet
  store_get_failed : ∀ (todo : Todo) (id : String) (s : σ),
    (st.Store todo s).1 ≠ none → (st.Get id (st.Store todo s).2).1 = (st.Get id s).1

/-- A world whose store holds the todo "Do me" under "id", already done. -/
def doneWorld : World Unit (Slice Todo) MarkedAsDone :=
  { idgenerator := (), store := [{ ID := "id", Text := "Do me", Done := true }],
    events := { ID := "" }, calls := [] }

/-- NotFoundError is returned if a todo cannot be found. -/
structure NotFoundError where
  ID : String
deriving DecidableEq, Repr

/-- Error implements the error interface. -/
def NotFoundError.Error (_ : todo.NotFoundError) : String := "todo not found"

/-- Details returns error details (a `[]interface{}` whose two elements are strings). -/
def NotFoundError.Details (e : todo.NotFoundError) : Slice String := ["todo_id", e.ID]

/-- IsBusinessError tells the transport layer whether this error should be translated
into the transport format or an internal error should be returned instead. -/
def NotFoundError.IsBusinessError (_ : todo.NotFoundError) : Bool := true

/-- The `error` interface value that holds a `NotFoundError`. -/
def NotFoundError.toError (e : todo.NotFoundError) : todo.Error :=
  todo.Error.NotFoundError e.ID

end todo

namespace errors

/-- New returns an error that formats as the given text (standard library `errors.New`);
it implements nothing besides `Error()`. -/
def New (text : String) : todo.Error := todo.Error.other text false

end errors

/-! ## Transport adapters (package `tododriver`): gRPC encoders and GraphQL resolvers

Endpoint requests and responses are the structs the adapters build and read
(`createTodoRequest`, `createTodoResponse`, `listTodosResponse`, `markAsDoneRequest`).
The declarations of the response types and of `todoError` are not under `src/`; whether
a response implements `endpoint.Failer`, what `Failed()` returns, the type of an error
code and the constant `codeNotFound` are therefore left open (data or parameters).
A type assertion that fails panics; a panic is the result `none`. -/

namespace tododriver

variable {κ : Type}

/-- Error values as the adapters see them: a `*todoError`, of which they use `Code()`
and the `Error()` text, or any other error. -/
inductive Err (κ : Type) where
  | todoError (code : κ) (msg : String)
  | plain (err : todo.Error)
deriving DecidableEq, Repr

/-- The `Error()` text of an error value. -/
def Err.Error : Err κ → String
  | .todoError _ msg => msg
  | .plain err => todo.Error.Error err

/-- The endpoint request of `CreateTodo`. -/
structure createTodoRequest where
  Text : String
deriving DecidableEq, Repr

/-- The endpoint request of `MarkAsDone`. -/
structure markAsDoneRequest where
  ID : String
deriving DecidableEq, Repr

/-- The dynamic value of an `interface{}` endpoint response. -/
inductive Value where
  | nil
  | createTodoResponse (ID : String)
  | listTodosResponse (Todos : Slice todo.Todo)
  | markAsDoneResponse
  | other
deriving DecidableEq, Repr

/-- An endpoint response: its value, and `failer`, which is `none` when the value's type
does not implement `endpoint.Failer` and `some f` when it does and `Failed()` returns
`f` (`some none` for a nil failure). -/
structure Response (κ : Type) where
  value : Value
  failer : Option (Option (Err κ))
deriving DecidableEq, Repr

/-- Endpoints collects the endpoints of the service; each returns a response and an
error. -/
structure Endpoints (κ : Type) where
  Create : createTodoRequest → Response κ × Option (Err κ)
  List : Unit → Response κ × Option (Err κ)
  MarkAsDone : markAsDoneRequest → Response κ × Option (Err κ)

/-- The gRPC status codes the encoders use, and `OK`. -/
inductive codes where
  | OK
  | NotFound
  | Internal
deriving DecidableEq, Repr

/-- A gRPC status error: code and message. -/
structure Status where
  code : codes
  message : String
deriving DecidableEq, Repr

/-- The library call `status.Error(c, msg)`: an error carrying code and message, nil
for `codes.OK`. -/
def status.Error (c : codes) (msg : String) : Option Status :=
  match c with
  | codes.OK => none
  | _ => some { code := c, message := msg }

/-- The protocol-buffer message `todov1beta1.MarkAsDoneResponse` (no fields). -/
structure MarkAsDoneResponse where
deriving DecidableEq, Repr

/-- The protocol-buffer message `todov1beta1.Todo`. -/
structure Todo where
  Id : String
  Text : String
  Done : Bool
deriving DecidableEq, Repr

/-- The protocol-buffer message `todov1beta1.ListTodosResponse`; an element is a
pointer, `none` for nil. -/
structure ListTodosResponse where
  Todos : Slice (Option Todo)
deriving DecidableEq, Repr

/-- The loop `for i, t := range resp.Todos { grpcResp.Todos[i] = &Todo{...} }`, from
index `i` on. -/
def fillTodos : Nat → Slice todo.Todo → Slice (Option Todo) → Slice (Option Todo)
  | _, [], out => out
  | i, t :: ts, out =>
    fillTodos (i + 1) ts (out.set i (some { Id := t.ID, Text := t.Text, Done := t.Done }))

/-- The encoder `encodeListTodosGRPCResponse`: `response.(listTodosResponse)`, then a
slice of `len(resp.Todos)` nil pointers filled by the loop. -/
def encodeListTodosGRPCResponse (response : Response κ) :
    Option (ListTodosResponse × Option (Err κ)) :=
  match response.value with
  | Value.listTodosResponse todos =>
    let grpcResp : ListTodosResponse := { Todos := List.replicate todos.length none }
    some ({ Todos := fillTodos 0 todos grpcResp.Todos }, none)
  | _ => none

/-- The encoder `encodeMarkAsDoneGRPCResponse`, with the constant `codeNotFound` as a
parameter. -/
def encodeMarkAsDoneGRPCResponse [DecidableEq κ] (codeNotFound : κ) (response : Response κ) :
    Option MarkAsDoneResponse × Option Status :=
  match response.failer with
  | some (some err) =>
    let code : codes :=
      match err with
      | Err.todoError c _ => if c = codeNotFound then codes.NotFound else codes.Internal
      | Err.plain _ => codes.Internal
    (none, status.Error code err.Error)
  | _ => (some {}, none)

/-- The GraphQL input `graphql.NewTodo`. -/
structure NewTodo where
  Text : String
deriving DecidableEq, Repr

/-- The resolver root: the endpoints.  Its `errorHandler` is modelled by the log of
errors handed to `Handle`, passed to and returned by each resolver. -/
structure resolver (κ : Type) where
  endpoints : Endpoints κ

/-- The resolver `mutationResolver.CreateTodo`. -/
def mutationResolver.CreateTodo (r : resolver κ) (input : NewTodo) (handled : Slice (Err κ)) :
    Option ((String × Option (Err κ)) × Slice (Err κ)) :=
  let req : createTodoRequest := { Text := input.Text }
  match r.endpoints.Create req with
  | (_, some err) =>
    some (("", some (Err.plain (errors.New "internal server error"))), handled ++ [err])
  | (resp, none) =>
    match resp.failer with
    | some failed => some (("", failed), handled)
    | none =>
      match resp.value with
      | Value.createTodoResponse ID => some ((ID, none), handled)
      | _ => none

/-- The resolver `mutationResolver.MarkTodoAsDone`. -/
def mutationResolver.MarkTodoAsDone (r : resolver κ) (input : String)
    (handled : Slice (Err κ)) : Option ((Bool × Option (Err κ)) × Slice (Err κ)) :=
  let req : markAsDoneRequest := { ID := input }
  match r.endpoints.MarkAsDone req with
  | (_, some err) =>
    some ((false, some (Err.plain (errors.New "internal server error"))), handled ++ [err])
  | (resp, none) =>
    match resp.failer with
    | some failed => some ((false, failed), handled)
    | none => some ((true, none), handled)

/-- The resolver `queryResolver.Todos`. -/
def queryResolver.Todos (r : resolver κ) (handled : Slice (Err κ)) :
    Option ((Slice todo.Todo × Option (Err κ)) × Slice (Err κ)) :=
  match r.endpoints.List () with
  | (_, some err) =>
    some (([], some (Err.plain (errors.New "internal server error"))), handled ++ [err])
  | (resp, none) =>
    match resp.value with
    | Value.listTodosResponse Todos => some ((Todos, none), handled)
    | _ => none

/-- Endpoints that all fail with the given error and a nil response. -/
def failingEndpoints (e : Err κ) : Endpoints κ where
  Create _ := ({ value := Value.nil, failer := none }, some e)
  List _ := ({ value := Value.nil, failer := none }, some e)
  MarkAsDone _ := ({ value := Value.nil, failer := none }, some e)

/-- Endpoints that return the given responses with a nil error. -/
def respondingEndpoints (create list markAsDone : Response κ) : Endpoints κ where
  Create _ := (create, none)
  List _ := (list, none)
  MarkAsDone _ := (markAsDone, none)

end tododriver

/-! ## Event wire format (package `todoadapter`)

The event dispatcher and the JSON marshaler it publishes through are not under `src/`
(only `events_test.go` is).  The wire format is modelled from the spec: a JSON object
with the single field `"ID"` holding a JSON string.  A payload is the list of its
characters; the bus hands the consumer the payload it was given. -/

namespace todoadapter

/-- Modelled from the spec: the double quote that delimits a JSON string (the event
marshaler is not under src/). -/
def dquote : Char := Char.ofNat 34

/-- Modelled from the spec: the backslash that starts a JSON escape (the event
marshaler is not under src/). -/
def backslash : Char := Char.ofNat 92

/-- Modelled from the spec: the opening brace of a JSON object (the event marshaler is
not under src/). -/
def lbrace : Char := Char.ofNat 123

/-- Modelled from the spec: the closing brace of a JSON object (the event marshaler is
not under src/). -/
def rbrace : Char := Char.ofNat 125

/-- Modelled from the spec: the lower-case hexadecimal digit of a number below 16, for
JSON `\u` escapes (the event marshaler is not under src/). -/
def hexDigit (n : Nat) : Char :=
  if n < 10 then Char.ofNat (48 + n) else Char.ofNat (87 + n)

/-- Modelled from the spec: the value of a hexadecimal digit, either case (the event
unmarshaler is not under src/). -/
def hexVal (c : Char) : Option Nat :=
  if 48 ≤ c.toNat ∧ c.toNat ≤ 57 then some (c.toNat - 48)
  else if 97 ≤ c.toNat ∧ c.toNat ≤ 102 then some (c.toNat - 87)
  else if 65 ≤ c.toNat ∧ c.toNat ≤ 70 then some (c.toNat - 55)
  else none

/-- Modelled from the spec: the code point of a four-digit JSON `\u` escape (the event
unmarshaler is not under src/). -/
def hex4 (a b c d : Char) : Option Nat :=
  match hexVal a, hexVal b, hexVal c, hexVal d with
  | some x, some y, some z, some w => some (((x * 16 + y) * 16 + z) * 16 + w)
  | _, _, _, _ => none

/-- Modelled from the spec: JSON escaping of one character of a string value: the
quote and the backslash get a backslash, a control character becomes `\u00XX`, any
other character stands for itself (the event marshaler is not under src/). -/
def escapeChar (c : Char) : Slice Char :=
  if c = dquote then [backslash, dquote]
  else if c = backslash then [backslash, backslash]
  else if c.toNat < 32 then
    [backslash, 'u', '0', '0', hexDigit (c.toNat / 16), hexDigit (c.toNat % 16)]
  else [c]

/-- Modelled from the spec: JSON escaping of the characters of a string value (the
event marshaler is not under src/). -/
def escape : Slice Char → Slice Char
  | [] => []
  | c :: cs => escapeChar c ++ escape cs

/-- Modelled from the spec: the character a single-letter JSON escape stands for (the
event unmarshaler is not under src/). -/
def simpleEscape (e : Char) : Option Char :=
  if e = dquote then some dquote
  else if e = backslash then some backslash
  else if e = '/' then some '/'
  else if e = 'b' then some (Char.ofNat 8)
  else if e = 'f' then some (Char.ofNat 12)
  else if e = 'n' then some (Char.ofNat 10)
  else if e = 'r' then some (Char.ofNat 13)
  else if e = 't' then some (Char.ofNat 9)
  else none

/-- Modelled from the spec: reading a JSON string value after its opening quote: the
decoded characters up to the closing quote, and the input left after it (the event
unmarshaler is not under src/). -/
def readString : Slice Char → Option (Slice Char × Slice Char)
  | [] => none
  | c :: cs =>
    if c = dquote then some ([], cs)
    else if c = backslash then
      match cs with
      | [] => none
      | e :: es =>
        if e = 'u' then
          match es with
          | a :: b :: c1 :: d :: rest =>
            match hex4 a b c1 d, readString rest with
            | some n, some (s, r) => some (Char.ofNat n :: s, r)
            | _, _ => none
          | _ => none
        else
          match simpleEscape e, readString es with
          | some x, some (s, r) => some (x :: s, r)
          | _, _ => none
    else
      match readString cs with
      | some (s, r) => some (c :: s, r)
      | none => none

/-- Modelled from the spec: the payload the event dispatcher publishes for a
`MarkedAsDone` event, a JSON object with the single field `"ID"` (the dispatcher and its
JSON marshaler are not under src/). -/
def marshal (event : todo.MarkedAsDone) : Slice Char :=
  [lbrace, dquote, 'I', 'D', dquote, ':', dquote] ++ escape event.ID.data ++ [dquote, rbrace]

/-- Modelled from the spec: deserialising a published payload into a `MarkedAsDone`, as
the consumer in `events_test.go` does with `json.Unmarshal`; `none` is a decoding error
(the unmarshaler is not under src/). -/
def unmarshal (payload : Slice Char) : Option todo.MarkedAsDone :=
  match payload with
  | l :: q1 :: i :: d :: q2 :: col :: q3 :: rest =>
    if l = lbrace ∧ q1 = dquote ∧ i = 'I' ∧ d = 'D' ∧ q2 = dquote ∧ col = ':' ∧ q3 = dquote then
      match readString rest with
      | some (s, [r]) => if r = rbrace then some { ID := String.mk s } else none
      | _ => none
    else none
  | _ => none

end todoadapter

/-! ## Application configuration (`cmd/config.go`, package `main`)

The sub-configurations (`log.Config`, `database.Config`, `redis.Config`, `jaeger.Config`),
their `Validate` methods and their `NewConfig` defaults are declared outside `src/`: the
types are parameters `L D R J`, the validators and default values are passed in. -/

namespace cmd

variable {L D R J : Type}

/-- The constant `time.Second` as a `time.Duration` (nanoseconds). -/
def time.Second : Int := 1000000000

/-- Config holds any kind of configuration that comes from the outside world and is
necessary for running the application. -/
structure Config (L D R J : Type) where
  Environment : String
  Debug : Bool
  ShutdownTimeout : Int
  Log : L
  MaintenanceAddr : String
  HTTPAddr : String
  Database : D
  Redis : R
  PrometheusEnabled : Bool
  JaegerEnabled : Bool
  Jaeger : J

/-- The `Validate` methods of the four sub-configurations. -/
structure Validators (L D R J : Type) where
  Log : L → Option todo.Error
  Database : D → Option todo.Error
  Redis : R → Option todo.Error
  Jaeger : J → Option todo.Error

/-- NewConfig returns a Config struct with sane defaults.  The arguments are
`log.NewConfig()`, `database.NewConfig()`, `redis.NewConfig()` and the zero
`jaeger.Config`; fields the literal leaves out have their zero value. -/
def NewConfig (logConfig : L) (databaseConfig : D) (redisConfig : R) (jaegerZero : J) :
    Config L D R J :=
  { Environment := "production"
    Debug := false
    ShutdownTimeout := 15 * time.Second
    Log := logConfig
    MaintenanceAddr := ":10000"
    HTTPAddr := ":8000"
    Database := databaseConfig
    Redis := redisConfig
    PrometheusEnabled := false
    JaegerEnabled := false
    Jaeger := jaegerZero }

/-- Validate validates the configuration. -/
def Config.Validate (v : Validators L D R J) (c : Config L D R J) : Option todo.Error :=
  if c.Environment = "" then some (errors.New "environment is required")
  else if c.MaintenanceAddr = "" then
    some (errors.New "maintenance http server address is required")
  else if c.HTTPAddr = "" then some (errors.New "http server address is required")
  else
    match v.Log c.Log with
    | some err => some err
    | none =>
      match v.Database c.Database with
      | some err => some err
      | none =>
        match v.Redis c.Redis with
        | some err => some err
        | none =>
          if c.JaegerEnabled then
            match v.Jaeger c.Jaeger with
            | some err => some err
            | none => none
          else none

/-- Validators over configurations that are flags: `true` validates, `false` fails with
an error naming the sub-configuration. -/
def flagValidators : Validators Bool Bool Bool Bool where
  Log b := if b then none else some (errors.New "invalid log config")
  Database b := if b then none else some (errors.New "invalid database config")
  Redis b := if b then none else some (errors.New "invalid redis config")
  Jaeger b := if b then none else some (errors.New "invalid jaeger config")

end cmd

namespace todo

variable {γ σ ε : Type}

/-! ## Call logs and the in-memory store -/

theorem dispatched_append (cs ds : Slice Call) :
    dispatched (cs ++ ds) = dispatched cs ++ dispatched ds := by
  induction cs with
  | nil => rfl
  | cons c cs ih => cases c <;> simp [dispatched, ih]

theorem stored_append (cs ds : Slice Call) :
    stored (cs ++ ds) = stored cs ++ stored ds := by
  induction cs with
  | nil => rfl
  | cons c cs ih => cases c <;> simp [stored, ih]

theorem InMemoryStore.lookup_put (todo : Todo) (s : Slice Todo) :
    InMemoryStore.lookup todo.ID (InMemoryStore.put todo s) = some todo := by
  induction s with
  | nil => simp [InMemoryStore.put, InMemoryStore.lookup]
  | cons t ts ih =>
    by_cases h : t.ID = todo.ID
    · simp [InMemoryStore.put, InMemoryStore.lookup, h]
    · simp [InMemoryStore.put, InMemoryStore.lookup, h, ih]

theorem InMemoryStore.mem_put (todo : Todo) (s : Slice Todo) :
    todo ∈ InMemoryStore.put todo s := by
  induction s with
  | nil => simp [InMemoryStore.put]
  | cons t ts ih =>
    by_cases h : t.ID = todo.ID
    · simp [InMemoryStore.put, h]
    · simp [InMemoryStore.put, h, ih]

theorem InMemoryStore.put_of_lookup (todo : Todo) (s : Slice Todo)
    (h : InMemoryStore.lookup todo.ID s = some todo) : InMemoryStore.put todo s = s := by
  induction s with
  | nil => simp [InMemoryStore.lookup] at h
  | cons t ts ih =>
    by_cases ht : t.ID = todo.ID
    · simp [InMemoryStore.lookup, ht] at h
      simp [InMemoryStore.put, ht, h]
    · simp [InMemoryStore.lookup, ht] at h
      simp [InMemoryStore.put, ht, ih h]

/-- The in-memory store returns from `Get` what `Store` has just written. -/
theorem NewInMemoryStore_storeThenGet : NewInMemoryStore.StoreThenGet := by
  intro todo s _
  simp [NewInMemoryStore, InMemoryStore.lookup_put]

/-- The in-memory store lists in `All` what `Store` has just written. -/
theorem NewInMemoryStore_storeThenAll : NewInMemoryStore.StoreThenAll := by
  intro todo s _
  simp [NewInMemoryStore, InMemoryStore.mem_put]

/-- Writing back to the in-memory store what `Get` returned changes nothing. -/
theorem NewInMemoryStore_getThenStore : NewInMemoryStore.GetThenStore := by
  intro todo s h
  simp only [NewInMemoryStore] at h ⊢
  cases hl : InMemoryStore.lookup todo.ID s with
  | none => rw [hl] at h; simp at h
  | some t =>
    rw [hl] at h
    simp only [Prod.mk.injEq, and_true] at h
    subst h
    simpa using InMemoryStore.put_of_lookup t s hl

/-! ## The four paths through `MarkAsDone` -/

/-- Path 1 of `MarkAsDone`: `Store.Get` fails; the error is wrapped and returned at once. -/
theorem List.MarkAsDone_of_get_failed (l : List γ σ ε) (id : String) (w : World γ σ ε)
    (e : Error) (hget : (l.store.Get id w.store).1.2 = some e) :
    l.MarkAsDone id w =
      (some (Error.withMessage e "failed to mark todo as done"),
        { w with store := (l.store.Get id w.store).2, calls := w.calls ++ [Call.Get id] }) := by
  unfold List.MarkAsDone List.callGet
  rcases hg : l.store.Get id w.store with ⟨⟨t, err⟩, s1⟩
  rw [hg] at hget
  simp only at hget
  subst hget
  simp [errors.WithMessage]

/-- Path 2 of `MarkAsDone`: `Store.Get` succeeds and `Store.Store` fails. -/
theorem List.MarkAsDone_of_store_failed (l : List γ σ ε) (id : String) (w : World γ σ ε)
    (t : Todo) (e : Error)
    (hget : (l.store.Get id w.store).1 = (t, none))
    (hstore : (l.store.Store { ID := t.ID, Text := t.Text, Done := true }
      (l.store.Get id w.store).2).1 = some e) :
    l.MarkAsDone id w =
      (some (Error.withMessage e "failed to mark todo as done"),
        { w with
          store := (l.store.Store { ID := t.ID, Text := t.Text, Done := true }
            (l.store.Get id w.store).2).2,
          calls := w.calls ++
            [Call.Get id, Call.Store { ID := t.ID, Text := t.Text, Done := true }] }) := by
  unfold List.MarkAsDone List.callGet List.callStore
  rcases hg : l.store.Get id w.store with ⟨⟨t0, err⟩, s1⟩
  rw [hg] at hget hstore
  simp only [Prod.mk.injEq] at hget
  obtain ⟨rfl, rfl⟩ := hget
  simp only at hstore ⊢
  rcases hs : l.store.Store { ID := t0.ID, Text := t0.Text, Done := true } s1 with ⟨err2, s2⟩
  rw [hs] at hstore
  simp only at hstore
  subst hstore
  simp [errors.WithMessage]

/-- Path 3 of `MarkAsDone`: the todo is fetched and written back, and the publisher fails. -/
theorem List.MarkAsDone_of_publish_failed (l : List γ σ ε) (id : String) (w : World γ σ ε)
    (t : Todo) (e : Error)
    (hget : (l.store.Get id w.store).1 = (t, none))
    (hstore : (l.store.Store { ID := t.ID, Text := t.Text, Done := true }
      (l.store.Get id w.store).2).1 = none)
    (hpub : (l.events.MarkedAsDone { ID := t.ID } w.events).1 = some e) :
    l.MarkAsDone id w =
      (some (Error.withMessage e "failed to mark todo as done"),
        { w with
          store := (l.store.Store { ID := t.ID, Text := t.Text, Done := true }
            (l.store.Get id w.store).2).2,
          events := (l.events.MarkedAsDone { ID := t.ID } w.events).2,
          calls := w.calls ++
            [Call.Get id, Call.Store { ID := t.ID, Text := t.Text, Done := true },
              Call.MarkedAsDone { ID := t.ID }] }) := by
  unfold List.MarkAsDone List.callGet List.callStore List.callMarkedAsDone
  rcases hg : l.store.Get id w.store with ⟨⟨t0, err⟩, s1⟩
  rw [hg] at hget hstore
  simp only [Prod.mk.injEq] at hget
  obtain ⟨rfl, rfl⟩ := hget
  simp only at hstore ⊢
  rcases hs : l.store.Store { ID := t0.ID, Text := t0.Text, Done := true } s1 with ⟨err2, s2⟩
  rw [hs] at hstore
  simp only at hstore
  subst hstore
  simp only
  rcases hp : l.events.MarkedAsDone { ID := t0.ID } w.events with ⟨err3, e3⟩
  rw [hp] at hpub
  simp only at hpub
  subst hpub
  simp [errors.WithMessage]

/-- Path 4 of `MarkAsDone`: all three collaborator calls succeed. -/
theorem List.MarkAsDone_of_success (l : List γ σ ε) (id : String) (w : World γ σ ε)
    (t : Todo)
    (hget : (l.store.Get id w.store).1 = (t, none))
    (hstore : (l.store.Store { ID := t.ID, Text := t.Text, Done := true }
      (l.store.Get id w.store).2).1 = none)
    (hpub : (l.events.MarkedAsDone { ID := t.ID } w.events).1 = none) :
    l.MarkAsDone id w =
      (none,
        { w with
          store := (l.store.Store { ID := t.ID, Text := t.Text, Done := true }
            (l.store.Get id w.store).2).2,
          events := (l.events.MarkedAsDone { ID := t.ID } w.events).2,
          calls := w.calls ++
            [Call.Get id, Call.Store { ID := t.ID, Text := t.Text, Done := true },
              Call.MarkedAsDone { ID := t.ID }] }) := by
  unfold List.MarkAsDone List.callGet List.callStore List.callMarkedAsDone
  rcases hg : l.store.Get id w.store with ⟨⟨t0, err⟩, s1⟩
  rw [hg] at hget hstore
  simp only [Prod.mk.injEq] at hget
  obtain ⟨rfl, rfl⟩ := hget
  simp only at hstore ⊢
  rcases hs : l.store.Store { ID := t0.ID, Text := t0.Text, Done := true } s1 with ⟨err2, s2⟩
  rw [hs] at hstore
  simp only at hstore
  subst hstore
  simp only
  rcases hp : l.events.MarkedAsDone { ID := t0.ID } w.events with ⟨err3, e3⟩
  rw [hp] at hpub
  simp only at hpub
  subst hpub
  simp

/-! ## The paths through `CreateTodo` -/

/-- Path 1 of `CreateTodo`: the generator fails; the store is not reached. -/
theorem List.CreateTodo_of_generate_failed (l : List γ σ ε) (text : String)
    (w : World γ σ ε) (e : Error)
    (hgen : (l.idgenerator.Generate w.idgenerator).1.2 = some e) :
    l.CreateTodo text w =
      (("", some e),
        { w with
          idgenerator := (l.idgenerator.Generate w.idgenerator).2,
          calls := w.calls ++ [Call.Generate] }) := by
  unfold List.CreateTodo List.callGenerate
  rcases hg : l.idgenerator.Generate w.idgenerator with ⟨⟨id0, err⟩, g1⟩
  rw [hg] at hgen
  simp only at hgen
  subst hgen
  simp

/-- Path 2 of `CreateTodo`: an ID is generated; the result carries whatever error
`Store.Store` returns. -/
theorem List.CreateTodo_of_generated (l : List γ σ ε) (text id : String)
    (w : World γ σ ε)
    (hgen : (l.idgenerator.Generate w.idgenerator).1 = (id, none)) :
    l.CreateTodo text w =
      ((id, (l.store.Store { ID := id, Text := text, Done := false } w.store).1),
        { w with
          idgenerator := (l.idgenerator.Generate w.idgenerator).2,
          store := (l.store.Store { ID := id, Text := text, Done := false } w.store).2,
          calls := w.calls ++
            [Call.Generate, Call.Store { ID := id, Text := text, Done := false }] }) := by
  unfold List.CreateTodo List.callGenerate List.callStore
  rcases hg : l.idgenerator.Generate w.idgenerator with ⟨⟨id0, err⟩, g1⟩
  rw [hg] at hgen
  simp only [Prod.mk.injEq] at hgen
  obtain ⟨rfl, rfl⟩ := hgen
  simp

/-! ## Claims about `MarkAsDone` and `CreateTodo` -/

/-- C1: when the store holds todo `t` under `id` (`Get(id)` returns `t`, keyed by its
own ID), writing it back succeeds and the publisher succeeds, `MarkAsDone(id)` returns
nil, the store afterwards returns exactly `t` with `Done = true` (ID and Text unchanged)
for `Get(id)`, and the calls made are `Get`, one `Store` of that todo and exactly one
dispatch of `MarkedAsDone` carrying `t.ID`. -/
theorem List.MarkAsDone_known_todo (l : List γ σ ε) (w : World γ σ ε) (id : String)
    (t : Todo)
    (hget : (l.store.Get id w.store).1 = (t, none))
    (hid : t.ID = id)
    (hstore : (l.store.Store { ID := t.ID, Text := t.Text, Done := true }
      (l.store.Get id w.store).2).1 = none)
    (hlaw : l.store.StoreThenGet)
    (hpub : (l.events.MarkedAsDone { ID := t.ID } w.events).1 = none) :
    (l.MarkAsDone id w).1 = none ∧
    (l.store.Get id (l.MarkAsDone id w).2.store).1 =
      ({ ID := t.ID, Text := t.Text, Done := true }, none) ∧
    (l.MarkAsDone id w).2.calls = w.calls ++
      [Call.Get id, Call.Store { ID := t.ID, Text := t.Text, Done := true },
        Call.MarkedAsDone { ID := t.ID }] ∧
    dispatched (l.MarkAsDone id w).2.calls = dispatched w.calls ++ [{ ID := t.ID }] := by
  rw [List.MarkAsDone_of_success l id w t hget hstore hpub]
  refine ⟨rfl, ?_, rfl, ?_⟩
  · have h := hlaw { ID := t.ID, Text := t.Text, Done := true } _ hstore
    simpa [hid] using h
  · simp [dispatched_append, dispatched]

/-- Scenario of `TestTodoList_MarkAsDone` (C1): the store holds "Do me" under "id". -/
theorem List.MarkAsDone_known_todo_witness :
    (testList.MarkAsDone "id" doMeWorld).1 = none ∧
    (testList.store.Get "id" (testList.MarkAsDone "id" doMeWorld).2.store).1 =
      ({ ID := "id", Text := "Do me", Done := true }, none) ∧
    (testList.MarkAsDone "id" doMeWorld).2.calls =
      [Call.Get "id", Call.Store { ID := "id", Text := "Do me", Done := true },
        Call.MarkedAsDone { ID := "id" }] ∧
    dispatched (testList.MarkAsDone "id" doMeWorld).2.calls = [{ ID := "id" }] :=
  List.MarkAsDone_known_todo testList doMeWorld "id" { ID := "id", Text := "Do me", Done := false }
    (by decide) (by decide) (by decide) NewInMemoryStore_storeThenGet (by decide)

/-- C2: when `Get(id)` fails with `NotFoundError` carrying `id` and leaves the store as
it is, `MarkAsDone(id)` returns a non-nil error whose cause is that `NotFoundError`,
makes no call besides `Get` (no `Store.Store`, no dispatch), and the store and publisher
states are unchanged. -/
theorem List.MarkAsDone_unknown_todo (l : List γ σ ε) (w : World γ σ ε) (id : String)
    (hget : (l.store.Get id w.store).1.2 = some (Error.NotFoundError id))
    (hro : (l.store.Get id w.store).2 = w.store) :
    (l.MarkAsDone id w).1 ≠ none ∧
    errors.Cause (l.MarkAsDone id w).1 = some (Error.NotFoundError id) ∧
    (l.MarkAsDone id w).2.calls = w.calls ++ [Call.Get id] ∧
    stored (l.MarkAsDone id w).2.calls = stored w.calls ∧
    dispatched (l.MarkAsDone id w).2.calls = dispatched w.calls ∧
    (l.MarkAsDone id w).2.store = w.store ∧
    (l.MarkAsDone id w).2.events = w.events := by
  rw [List.MarkAsDone_of_get_failed l id w _ hget]
  refine ⟨by simp, ?_, rfl, ?_, ?_, hro, rfl⟩
  · simp [errors.Cause, errors.rootCause]
  · simp [stored_append, stored]
  · simp [dispatched_append, dispatched]

/-- Scenario of `TestTodoList_CannotMarkANonExistingTodoDone` (C2): an empty store. -/
theorem List.MarkAsDone_unknown_todo_witness :
    (testList.store.Get "missing" emptyWorld.store).1.2 = some (Error.NotFoundError "missing") ∧
    (testList.MarkAsDone "missing" emptyWorld).1 ≠ none ∧
    errors.Cause (testList.MarkAsDone "missing" emptyWorld).1 =
      some (Error.NotFoundError "missing") ∧
    (testList.MarkAsDone "missing" emptyWorld).2.calls = [Call.Get "missing"] ∧
    stored (testList.MarkAsDone "missing" emptyWorld).2.calls = [] ∧
    dispatched (testList.MarkAsDone "missing" emptyWorld).2.calls = [] ∧
    (testList.MarkAsDone "missing" emptyWorld).2.store = [] ∧
    (testList.MarkAsDone "missing" emptyWorld).2.events = emptyWorld.events :=
  ⟨by decide, List.MarkAsDone_unknown_todo testList emptyWorld "missing" (by decide) (by decide)⟩

/-- C3: when the generator returns `id` without error and `Store.Store` of the new todo
succeeds, `CreateTodo(text)` returns `(id, nil)`, and the store afterwards returns
exactly `Todo{ID: id, Text: text, Done: false}` for `Get(id)` and lists it in `All`. -/
theorem List.CreateTodo_stores_new_todo (l : List γ σ ε) (w : World γ σ ε)
    (text id : String)
    (hgen : (l.idgenerator.Generate w.idgenerator).1 = (id, none))
    (hstore : (l.store.Store { ID := id, Text := text, Done := false } w.store).1 = none)
    (hget : l.store.StoreThenGet) (hall : l.store.StoreThenAll) :
    (l.CreateTodo text w).1 = (id, none) ∧
    (l.store.Get id (l.CreateTodo text w).2.store).1 =
      ({ ID := id, Text := text, Done := false }, none) ∧
    (l.store.All (l.CreateTodo text w).2.store).1.2 = none ∧
    ({ ID := id, Text := text, Done := false } : Todo) ∈
      (l.store.All (l.CreateTodo text w).2.store).1.1 ∧
    (l.CreateTodo text w).2.calls = w.calls ++
      [Call.Generate, Call.Store { ID := id, Text := text, Done := false }] := by
  rw [List.CreateTodo_of_generated l text id w hgen]
  refine ⟨?_, ?_, ?_, ?_, rfl⟩
  · simp [hstore]
  · exact hget { ID := id, Text := text, Done := false } _ hstore
  · exact (hall { ID := id, Text := text, Done := false } _ hstore).1
  · exact (hall { ID := id, Text := text, Done := false } _ hstore).2

/-- Scenario of `TestTodoList_CreatesATodo` (C3): generator fixed to "id", text
"My first todo", empty store; the result is "id" and the list is that single todo. -/
theorem List.CreateTodo_stores_new_todo_witness :
    (testList.CreateTodo "My first todo" emptyWorld).1 = ("id", none) ∧
    (testList.ListTodos (testList.CreateTodo "My first todo" emptyWorld).2).1 =
      ([{ ID := "id", Text := "My first todo", Done := false }], none) ∧
    (testList.store.Get "id" (testList.CreateTodo "My first todo" emptyWorld).2.store).1 =
      ({ ID := "id", Text := "My first todo", Done := false }, none) ∧
    (testList.store.All (testList.CreateTodo "My first todo" emptyWorld).2.store).1.2 = none ∧
    ({ ID := "id", Text := "My first todo", Done := false } : Todo) ∈
      (testList.store.All (testList.CreateTodo "My first todo" emptyWorld).2.store).1.1 ∧
    (testList.CreateTodo "My first todo" emptyWorld).2.calls =
      [Call.Generate, Call.Store { ID := "id", Text := "My first todo", Done := false }] :=
  have h := List.CreateTodo_stores_new_todo testList emptyWorld "My first todo" "id"
    (by decide) (by decide) NewInMemoryStore_storeThenGet NewInMemoryStore_storeThenAll
  ⟨h.1, by decide, h.2⟩

/-- C4: when the generator fails with `e`, `CreateTodo(text)` returns `("", e)`, the
only call made is `Generate` (`Store.Store` is never called) and the store state is the
state before the call. -/
theorem List.CreateTodo_generator_fails (l : List γ σ ε) (w : World γ σ ε)
    (text : String) (e : Error)
    (hgen : (l.idgenerator.Generate w.idgenerator).1.2 = some e) :
    (l.CreateTodo text w).1 = ("", some e) ∧
    (l.CreateTodo text w).2.calls = w.calls ++ [Call.Generate] ∧
    stored (l.CreateTodo text w).2.calls = stored w.calls ∧
    (l.CreateTodo text w).2.store = w.store := by
  rw [List.CreateTodo_of_generate_failed l text w e hgen]
  refine ⟨rfl, rfl, ?_, rfl⟩
  simp [stored_append, stored]

/-- A failing generator in front of a store that already holds a todo (C4). -/
theorem List.CreateTodo_generator_fails_witness :
    ((NewList (failingGenerator (Error.other "no id" false)) NewInMemoryStore
        todoEventsStub).CreateTodo "My first todo" doMeWorld).1 =
      ("", some (Error.other "no id" false)) ∧
    ((NewList (failingGenerator (Error.other "no id" false)) NewInMemoryStore
        todoEventsStub).CreateTodo "My first todo" doMeWorld).2.calls = [Call.Generate] ∧
    stored ((NewList (failingGenerator (Error.other "no id" false)) NewInMemoryStore
        todoEventsStub).CreateTodo "My first todo" doMeWorld).2.calls = [] ∧
    ((NewList (failingGenerator (Error.other "no id" false)) NewInMemoryStore
        todoEventsStub).CreateTodo "My first todo" doMeWorld).2.store =
      [{ ID := "id", Text := "Do me", Done := false }] :=
  List.CreateTodo_generator_fails
    (NewList (failingGenerator (Error.other "no id" false)) NewInMemoryStore todoEventsStub)
    doMeWorld "My first todo" (Error.other "no id" false) (by decide)

/-- C5: when the generator returns `id` and `Store.Store` of the new todo fails with `e`,
rejecting the write, `CreateTodo(text)` returns `e` itself as its error: non-nil, not
wrapped (it unwraps as `e` does), with the classification `e` has, and the store state
is unchanged. -/
theorem List.CreateTodo_store_fails (l : List γ σ ε) (w : World γ σ ε)
    (text id : String) (e : Error)
    (hgen : (l.idgenerator.Generate w.idgenerator).1 = (id, none))
    (hstore : (l.store.Store { ID := id, Text := text, Done := false } w.store).1 = some e)
    (hrej : (l.store.Store { ID := id, Text := text, Done := false } w.store).2 = w.store) :
    (l.CreateTodo text w).1 = (id, some e) ∧
    (l.CreateTodo text w).1.2 ≠ none ∧
    errors.Unwrap (l.CreateTodo text w).1.2 = errors.Unwrap (some e) ∧
    (l.CreateTodo text w).1.2.map Error.IsBusinessError = some e.IsBusinessError ∧
    (l.CreateTodo text w).2.store = w.store := by
  rw [List.CreateTodo_of_generated l text id w hgen]
  simp [hstore, hrej]

/-- Scenario of `TestTodoList_CannotCreateATodo` (C5): a read-only store, here holding
one todo, rejects the new todo; the error comes back unclassified. -/
theorem List.CreateTodo_store_fails_witness :
    (readOnlyTestList.CreateTodo "My first todo" doMeWorld).1 = ("id", some ReadOnlyStoreError) ∧
    (readOnlyTestList.CreateTodo "My first todo" doMeWorld).1.2 ≠ none ∧
    errors.Unwrap (readOnlyTestList.CreateTodo "My first todo" doMeWorld).1.2 = none ∧
    (readOnlyTestList.CreateTodo "My first todo" doMeWorld).1.2.map Error.IsBusinessError =
      some false ∧
    (readOnlyTestList.CreateTodo "My first todo" doMeWorld).2.store =
      [{ ID := "id", Text := "Do me", Done := false }] :=
  List.CreateTodo_store_fails readOnlyTestList doMeWorld "My first todo" "id"
    ReadOnlyStoreError (by decide) (by decide) (by decide)

/-- C6: `ListTodos` returns exactly the pair `Store.All` returns (same todos in the same
order with the same fields, same error), making that one call and nothing else; in
particular when `All` returns an empty collection and nil, so does `ListTodos`. -/
theorem List.ListTodos_returns_all (l : List γ σ ε) (w : World γ σ ε) :
    (l.ListTodos w).1 = (l.store.All w.store).1 ∧
    (l.ListTodos w).2.store = (l.store.All w.store).2 ∧
    (l.ListTodos w).2.calls = w.calls ++ [Call.All] ∧
    ((l.store.All w.store).1 = ([], none) → (l.ListTodos w).1 = ([], none)) :=
  ⟨rfl, rfl, rfl, fun h => h⟩

/-- Scenarios for C6: the empty in-memory store lists nothing without error, and a
store holding an open and a done todo lists both, in order, done flag included. -/
theorem List.ListTodos_returns_all_witness :
    (testList.ListTodos emptyWorld).1 = ([], none) ∧
    (testList.ListTodos
        { idgenerator := (),
          store := [{ ID := "a", Text := "Make the listing work", Done := false },
            { ID := "b", Text := "Do me", Done := true }],
          events := { ID := "" }, calls := [] }).1 =
      ([{ ID := "a", Text := "Make the listing work", Done := false },
        { ID := "b", Text := "Do me", Done := true }], none) :=
  ⟨(List.ListTodos_returns_all testList emptyWorld).2.2.2 (by decide),
    (List.ListTodos_returns_all testList _).1⟩

/-- C7: whichever of the three steps of `MarkAsDone` fails with `e` (`Store.Get`, or
`Store.Store` after a successful `Get`, or `Events.MarkedAsDone` after both), the
returned error is `e` wrapped with the message "failed to mark todo as done": its text
is that message followed by the text of `e`, unwrapping it gives exactly `e`, and its
business classification and root cause are those of `e`. -/
theorem List.MarkAsDone_wraps_step_error (l : List γ σ ε) (w : World γ σ ε)
    (id : String) (e : Error)
    (hfail :
      (l.store.Get id w.store).1.2 = some e ∨
      (∃ t : Todo, (l.store.Get id w.store).1 = (t, none) ∧
        (l.store.Store { ID := t.ID, Text := t.Text, Done := true }
          (l.store.Get id w.store).2).1 = some e) ∨
      (∃ t : Todo, (l.store.Get id w.store).1 = (t, none) ∧
        (l.store.Store { ID := t.ID, Text := t.Text, Done := true }
          (l.store.Get id w.store).2).1 = none ∧
        (l.events.MarkedAsDone { ID := t.ID } w.events).1 = some e)) :
    (l.MarkAsDone id w).1 = some (Error.withMessage e "failed to mark todo as done") ∧
    (l.MarkAsDone id w).1.map Error.Error =
      some ("failed to mark todo as done" ++ ": " ++ e.Error) ∧
    errors.Unwrap (l.MarkAsDone id w).1 = some e ∧
    (l.MarkAsDone id w).1.map Error.IsBusinessError = some e.IsBusinessError ∧
    errors.Cause (l.MarkAsDone id w).1 = errors.Cause (some e) := by
  have hret : (l.MarkAsDone id w).1 =
      some (Error.withMessage e "failed to mark todo as done") := by
    rcases hfail with h | ⟨t, hg, hs⟩ | ⟨t, hg, hs, hp⟩
    · rw [List.MarkAsDone_of_get_failed l id w e h]
    · rw [List.MarkAsDone_of_store_failed l id w t e hg hs]
    · rw [List.MarkAsDone_of_publish_failed l id w t e hg hs hp]
  rw [hret]
  simp [Error.Error, Error.IsBusinessError, errors.Unwrap, errors.Cause, errors.rootCause]

/-- The three failing steps of C7: an unknown ID (the business error `NotFoundError`
stays recoverable), a read-only store, and a failing publisher. -/
theorem List.MarkAsDone_wraps_step_error_witness :
    ((testList.MarkAsDone "missing" emptyWorld).1 =
        some (Error.withMessage (Error.NotFoundError "missing")
          "failed to mark todo as done") ∧
      (testList.MarkAsDone "missing" emptyWorld).1.map Error.Error =
        some "failed to mark todo as done: todo not found" ∧
      errors.Unwrap (testList.MarkAsDone "missing" emptyWorld).1 =
        some (Error.NotFoundError "missing") ∧
      (testList.MarkAsDone "missing" emptyWorld).1.map Error.IsBusinessError = some true ∧
      errors.Cause (testList.MarkAsDone "missing" emptyWorld).1 =
        some (Error.NotFoundError "missing")) ∧
    (readOnlyTestList.MarkAsDone "id" doMeWorld).1 =
      some (Error.withMessage ReadOnlyStoreError "failed to mark todo as done") ∧
    ((NewList (idgen.NewConstantGenerator "id") NewInMemoryStore
        (failingEvents (Error.other "bus down" false))).MarkAsDone "id" doMeWorld).1 =
      some (Error.withMessage (Error.other "bus down" false)
        "failed to mark todo as done") :=
  ⟨List.MarkAsDone_wraps_step_error testList emptyWorld "missing"
      (Error.NotFoundError "missing") (Or.inl (by decide)),
    (List.MarkAsDone_wraps_step_error readOnlyTestList doMeWorld "id" ReadOnlyStoreError
      (Or.inr (Or.inl ⟨{ ID := "id", Text := "Do me", Done := false },
        by decide, by decide⟩))).1,
    (List.MarkAsDone_wraps_step_error
      (NewList (idgen.NewConstantGenerator "id") NewInMemoryStore
        (failingEvents (Error.other "bus down" false)))
      doMeWorld "id" (Error.other "bus down" false)
      (Or.inr (Or.inr ⟨{ ID := "id", Text := "Do me", Done := false },
        by decide, by decide, by decide⟩))).1⟩

/-- C8: when `Get(id)` returns todo `t` and the write-back `Store.Store` fails with `e`
(the store being left in the state it had before the call, as a read-only store
leaves it), `MarkAsDone(id)` returns
a non-nil error, hands no event to the publisher (the calls are `Get` and `Store`
only, the publisher state is untouched), and the store still returns `t`, with its
previous `Done` value, for `Get(id)`. -/
theorem List.MarkAsDone_store_fails (l : List γ σ ε) (w : World γ σ ε) (id : String)
    (t : Todo) (e : Error)
    (hget : (l.store.Get id w.store).1 = (t, none))
    (hstore : (l.store.Store { ID := t.ID, Text := t.Text, Done := true }
      (l.store.Get id w.store).2).1 = some e)
    (hrej : (l.store.Store { ID := t.ID, Text := t.Text, Done := true }
      (l.store.Get id w.store).2).2 = w.store) :
    (l.MarkAsDone id w).1 ≠ none ∧
    (l.MarkAsDone id w).1 = some (Error.withMessage e "failed to mark todo as done") ∧
    (l.MarkAsDone id w).2.calls = w.calls ++
      [Call.Get id, Call.Store { ID := t.ID, Text := t.Text, Done := true }] ∧
    dispatched (l.MarkAsDone id w).2.calls = dispatched w.calls ∧
    (l.MarkAsDone id w).2.events = w.events ∧
    (l.MarkAsDone id w).2.store = w.store ∧
    (l.store.Get id (l.MarkAsDone id w).2.store).1 = (t, none) := by
  rw [List.MarkAsDone_of_store_failed l id w t e hget hstore]
  refine ⟨by simp, rfl, rfl, ?_, rfl, hrej, ?_⟩
  · simp [dispatched_append, dispatched]
  · simp only [hrej]
    exact hget

/-- Scenario of `TestTodoList_StoringDoneTodoFails` (C8): a read-only wrapper around an
in-memory store that holds "Do me" under "id". -/
theorem List.MarkAsDone_store_fails_witness :
    (readOnlyTestList.MarkAsDone "id" doMeWorld).1 ≠ none ∧
    (readOnlyTestList.MarkAsDone "id" doMeWorld).1 =
      some (Error.withMessage ReadOnlyStoreError "failed to mark todo as done") ∧
    (readOnlyTestList.MarkAsDone "id" doMeWorld).2.calls =
      [Call.Get "id", Call.Store { ID := "id", Text := "Do me", Done := true }] ∧
    dispatched (readOnlyTestList.MarkAsDone "id" doMeWorld).2.calls = [] ∧
    (readOnlyTestList.MarkAsDone "id" doMeWorld).2.events = { ID := "" } ∧
    (readOnlyTestList.MarkAsDone "id" doMeWorld).2.store =
      [{ ID := "id", Text := "Do me", Done := false }] ∧
    (readOnlyTestList.store.Get "id" (readOnlyTestList.MarkAsDone "id" doMeWorld).2.store).1 =
      ({ ID := "id", Text := "Do me", Done := false }, none) :=
  List.MarkAsDone_store_fails readOnlyTestList doMeWorld "id"
    { ID := "id", Text := "Do me", Done := false } ReadOnlyStoreError
    (by decide) (by decide) (by decide)

/-- C9: when the store holds `t` under `id`, the write-back succeeds and the publisher
fails with `e`, `MarkAsDone(id)` returns a non-nil error that unwraps to `e` (and has
the root cause of `e`), while the store keeps the write: it is in the state `Store.Store`
left and returns `t` with `Done = true` for `Get(id)`.  The publisher is invoked exactly
once, and nothing is called after it. -/
theorem List.MarkAsDone_publish_fails (l : List γ σ ε) (w : World γ σ ε) (id : String)
    (t : Todo) (e : Error)
    (hget : (l.store.Get id w.store).1 = (t, none))
    (hid : t.ID = id)
    (hstore : (l.store.Store { ID := t.ID, Text := t.Text, Done := true }
      (l.store.Get id w.store).2).1 = none)
    (hlaw : l.store.StoreThenGet)
    (hpub : (l.events.MarkedAsDone { ID := t.ID } w.events).1 = some e) :
    (l.MarkAsDone id w).1 ≠ none ∧
    errors.Unwrap (l.MarkAsDone id w).1 = some e ∧
    errors.Cause (l.MarkAsDone id w).1 = errors.Cause (some e) ∧
    (l.MarkAsDone id w).2.store =
      (l.store.Store { ID := t.ID, Text := t.Text, Done := true }
        (l.store.Get id w.store).2).2 ∧
    (l.store.Get id (l.MarkAsDone id w).2.store).1 =
      ({ ID := t.ID, Text := t.Text, Done := true }, none) ∧
    (l.MarkAsDone id w).2.calls = w.calls ++
      [Call.Get id, Call.Store { ID := t.ID, Text := t.Text, Done := true },
        Call.MarkedAsDone { ID := t.ID }] ∧
    dispatched (l.MarkAsDone id w).2.calls = dispatched w.calls ++ [{ ID := t.ID }] := by
  rw [List.MarkAsDone_of_publish_failed l id w t e hget hstore hpub]
  refine ⟨by simp, ?_, ?_, rfl, ?_, rfl, ?_⟩
  · simp [errors.Unwrap]
  · simp [errors.Cause, errors.rootCause]
  · have h := hlaw { ID := t.ID, Text := t.Text, Done := true } _ hstore
    simpa [hid] using h
  · simp [dispatched_append, dispatched]

/-- A failing publisher behind the in-memory store holding "Do me" under "id" (C9). -/
theorem List.MarkAsDone_publish_fails_witness :
    ((NewList (idgen.NewConstantGenerator "id") NewInMemoryStore
        (failingEvents (Error.other "bus down" false))).MarkAsDone "id" doMeWorld).1 =
      some (Error.withMessage (Error.other "bus down" false)
        "failed to mark todo as done") ∧
    ((NewList (idgen.NewConstantGenerator "id") NewInMemoryStore
        (failingEvents (Error.other "bus down" false))).MarkAsDone "id" doMeWorld).2.store =
      [{ ID := "id", Text := "Do me", Done := true }] ∧
    dispatched ((NewList (idgen.NewConstantGenerator "id") NewInMemoryStore
        (failingEvents (Error.other "bus down" false))).MarkAsDone "id" doMeWorld).2.calls =
      [{ ID := "id" }] ∧
    errors.Unwrap ((NewList (idgen.NewConstantGenerator "id") NewInMemoryStore
        (failingEvents (Error.other "bus down" false))).MarkAsDone "id" doMeWorld).1 =
      some (Error.other "bus down" false) :=
  ⟨by decide, by decide, by decide,
    (List.MarkAsDone_publish_fails
      (NewList (idgen.NewConstantGenerator "id") NewInMemoryStore
        (failingEvents (Error.other "bus down" false)))
      doMeWorld "id" { ID := "id", Text := "Do me", Done := false }
      (Error.other "bus down" false)
      (by decide) (by decide) (by decide) NewInMemoryStore_storeThenGet (by decide)).2.1⟩

/-- C10: `MarkAsDone` is not guarded against repetition.  When the store holds `t` under
`id`, every `Store.Store` and every publish succeeds, and the store obeys the keyed
collection contract (`Get` returns what `Store` wrote; writing back what `Get` returned
changes nothing), two successive calls of `MarkAsDone(id)` both return nil, write the
todo with `Done = true` twice, hand `MarkedAsDone` carrying `id` to the publisher twice,
and the store state after the second call equals the state after the first. -/
theorem List.MarkAsDone_twice (l : List γ σ ε) (w : World γ σ ε) (id : String)
    (t : Todo)
    (hget : (l.store.Get id w.store).1 = (t, none))
    (hid : t.ID = id)
    (hstore : ∀ (todo : Todo) (s : σ), (l.store.Store todo s).1 = none)
    (hpub : ∀ (event : MarkedAsDone) (s : ε), (l.events.MarkedAsDone event s).1 = none)
    (hsg : l.store.StoreThenGet) (hgs : l.store.GetThenStore) :
    (l.MarkAsDone id w).1 = none ∧
    (l.MarkAsDone id (l.MarkAsDone id w).2).1 = none ∧
    (l.MarkAsDone id (l.MarkAsDone id w).2).2.calls = w.calls ++
      [Call.Get id, Call.Store { ID := id, Text := t.Text, Done := true },
        Call.MarkedAsDone { ID := id },
        Call.Get id, Call.Store { ID := id, Text := t.Text, Done := true },
        Call.MarkedAsDone { ID := id }] ∧
    stored (l.MarkAsDone id (l.MarkAsDone id w).2).2.calls = stored w.calls ++
      [{ ID := id, Text := t.Text, Done := true },
        { ID := id, Text := t.Text, Done := true }] ∧
    dispatched (l.MarkAsDone id (l.MarkAsDone id w).2).2.calls = dispatched w.calls ++
      [{ ID := id }, { ID := id }] ∧
    (l.MarkAsDone id (l.MarkAsDone id w).2).2.store = (l.MarkAsDone id w).2.store := by
  subst hid
  have h1 := List.MarkAsDone_of_success l t.ID w t hget (hstore _ _) (hpub _ _)
  have hget2 : (l.store.Get t.ID (l.MarkAsDone t.ID w).2.store).1 =
      ({ ID := t.ID, Text := t.Text, Done := true }, none) := by
    rw [h1]
    exact hsg { ID := t.ID, Text := t.Text, Done := true } _ (hstore _ _)
  have h2 := List.MarkAsDone_of_success l t.ID (l.MarkAsDone t.ID w).2
    { ID := t.ID, Text := t.Text, Done := true } hget2 (hstore _ _) (hpub _ _)
  have hsame := hgs { ID := t.ID, Text := t.Text, Done := true }
    (l.MarkAsDone t.ID w).2.store hget2
  refine ⟨by rw [h1], by rw [h2], ?_, ?_, ?_, ?_⟩
  · rw [h2, h1]; simp
  · rw [h2, h1]; simp [stored_append, stored]
  · rw [h2, h1]; simp [dispatched_append, dispatched]
  · rw [h2]; exact hsame

/-- Marking "Do me" as done twice on the in-memory store with the events stub (C10). -/
theorem List.MarkAsDone_twice_witness :
    (testList.MarkAsDone "id" doMeWorld).1 = none ∧
    (testList.MarkAsDone "id" (testList.MarkAsDone "id" doMeWorld).2).1 = none ∧
    (testList.MarkAsDone "id" (testList.MarkAsDone "id" doMeWorld).2).2.calls =
      [Call.Get "id", Call.Store { ID := "id", Text := "Do me", Done := true },
        Call.MarkedAsDone { ID := "id" },
        Call.Get "id", Call.Store { ID := "id", Text := "Do me", Done := true },
        Call.MarkedAsDone { ID := "id" }] ∧
    stored (testList.MarkAsDone "id" (testList.MarkAsDone "id" doMeWorld).2).2.calls =
      [{ ID := "id", Text := "Do me", Done := true },
        { ID := "id", Text := "Do me", Done := true }] ∧
    dispatched (testList.MarkAsDone "id" (testList.MarkAsDone "id" doMeWorld).2).2.calls =
      [{ ID := "id" }, { ID := "id" }] ∧
    (testList.MarkAsDone "id" (testList.MarkAsDone "id" doMeWorld).2).2.store =
      (testList.MarkAsDone "id" doMeWorld).2.store :=
  List.MarkAsDone_twice testList doMeWorld "id" { ID := "id", Text := "Do me", Done := false }
    (by decide) (by decide) (fun _ _ => rfl) (fun _ _ => rfl)
    NewInMemoryStore_storeThenGet NewInMemoryStore_getThenStore

end todo

namespace todo

variable {γ σ ε : Type}

/-! ## `Done = true` under sequences of operations -/

theorem InMemoryStore.lookup_id (id : String) (s : Slice Todo) (t : Todo)
    (h : InMemoryStore.lookup id s = some t) : t.ID = id := by
  induction s with
  | nil => simp [InMemoryStore.lookup] at h
  | cons u us ih =>
    by_cases hu : u.ID = id
    · simp [InMemoryStore.lookup, hu] at h
      rw [← h]; exact hu
    · simp [InMemoryStore.lookup, hu] at h
      exact ih h

theorem InMemoryStore.lookup_put_ne (todo : Todo) (id : String) (s : Slice Todo)
    (h : todo.ID ≠ id) :
    InMemoryStore.lookup id (InMemoryStore.put todo s) = InMemoryStore.lookup id s := by
  induction s with
  | nil => simp [InMemoryStore.put, InMemoryStore.lookup, h]
  | cons u us ih =>
    by_cases hu : u.ID = todo.ID
    · have hu' : u.ID ≠ id := by rw [hu]; exact h
      simp [InMemoryStore.put, InMemoryStore.lookup, hu, h, hu']
    · by_cases hi : u.ID = id
      · simp only [InMemoryStore.put, if_neg hu, InMemoryStore.lookup, if_pos hi]
      · simp only [InMemoryStore.put, if_neg hu, InMemoryStore.lookup, if_neg hi, ih]

/-- The in-memory store obeys the keyed-collection contract. -/
theorem NewInMemoryStore_keyed : NewInMemoryStore.Keyed where
  get_id := by
    intro id s t h
    simp only [NewInMemoryStore] at h
    cases hl : InMemoryStore.lookup id s with
    | none => rw [hl] at h; simp at h
    | some u =>
      rw [hl] at h
      simp only [Prod.mk.injEq, and_true] at h
      rw [← h]
      exact InMemoryStore.lookup_id id s u hl
  get_get := by
    intro id id' s
    simp only [NewInMemoryStore]
    cases InMemoryStore.lookup id' s <;> rfl
  all_get := by
    intro id s
    rfl
  store_get_ne := by
    intro todo id s h
    simp only [NewInMemoryStore, InMemoryStore.lookup_put_ne todo id s h]
    cases InMemoryStore.lookup id s <;> rfl
  store_get := NewInMemoryStore_storeThenGet
  store_get_failed := by
    intro todo id s h
    simp [NewInMemoryStore] at h

/-- The store state `CreateTodo` leaves: untouched when the generator fails, otherwise
what `Store.Store` of the new todo left. -/
theorem List.store_after_CreateTodo (l : List γ σ ε) (text : String) (w : World γ σ ε) :
    (l.CreateTodo text w).2.store =
      match (l.idgenerator.Generate w.idgenerator).1.2 with
      | some _ => w.store
      | none =>
        (l.store.Store
          { ID := (l.idgenerator.Generate w.idgenerator).1.1, Text := text, Done := false }
          w.store).2 := by
  rcases hg : (l.idgenerator.Generate w.idgenerator).1 with ⟨id0, err⟩
  cases err with
  | some e =>
    have h : (l.idgenerator.Generate w.idgenerator).1.2 = some e := by rw [hg]
    rw [List.CreateTodo_of_generate_failed l text w e h]
  | none =>
    rw [List.CreateTodo_of_generated l text id0 w hg]

/-- The store state `MarkAsDone` leaves: what `Get` left when `Get` fails, otherwise
what the write-back of the fetched todo with `Done = true` left. -/
theorem List.store_after_MarkAsDone (l : List γ σ ε) (id : String) (w : World γ σ ε) :
    (l.MarkAsDone id w).2.store =
      match (l.store.Get id w.store).1.2 with
      | some _ => (l.store.Get id w.store).2
      | none =>
        (l.store.Store
          { ID := (l.store.Get id w.store).1.1.ID, Text := (l.store.Get id w.store).1.1.Text,
            Done := true }
          (l.store.Get id w.store).2).2 := by
  rcases hg : (l.store.Get id w.store).1 with ⟨t0, err⟩
  cases err with
  | some e =>
    have h : (l.store.Get id w.store).1.2 = some e := by rw [hg]
    rw [List.MarkAsDone_of_get_failed l id w e h]
  | none =>
    cases hs : (l.store.Store { ID := t0.ID, Text := t0.Text, Done := true }
        (l.store.Get id w.store).2).1 with
    | some e => rw [List.MarkAsDone_of_store_failed l id w t0 e hg hs]
    | none =>
      cases hp : (l.events.MarkedAsDone { ID := t0.ID } w.events).1 with
      | some e => rw [List.MarkAsDone_of_publish_failed l id w t0 e hg hs hp]
      | none => rw [List.MarkAsDone_of_success l id w t0 hg hs hp]

/-- One operation keeps a done todo in a keyed store, as long as the generator does not
hand out its ID. -/
theorem List.step_keeps_done (l : List γ σ ε) (hk : l.store.Keyed) (id : String)
    (t : Todo) (ht : t.Done = true)
    (hfresh : ∀ g : γ, (l.idgenerator.Generate g).1 ≠ (id, none))
    (op : Op) (w : World γ σ ε) (hheld : (l.store.Get id w.store).1 = (t, none)) :
    (l.store.Get id (l.step op w).store).1 = (t, none) := by
  cases op with
  | CreateTodo text =>
    simp only [List.step, List.store_after_CreateTodo]
    rcases hg : (l.idgenerator.Generate w.idgenerator).1 with ⟨id0, err⟩
    cases err with
    | some e => exact hheld
    | none =>
      have hne : id0 ≠ id := by
        intro h
        exact hfresh w.idgenerator (by rw [hg, h])
      simp only
      rw [hk.store_get_ne _ id w.store hne]
      exact hheld
  | ListTodos =>
    simp only [List.step, List.ListTodos, List.callAll]
    rw [hk.all_get]
    exact hheld
  | MarkAsDone id' =>
    simp only [List.step, List.store_after_MarkAsDone]
    rcases hg : (l.store.Get id' w.store).1 with ⟨t0, err⟩
    cases err with
    | some e =>
      simp only
      rw [hk.get_get]
      exact hheld
    | none =>
      simp only
      have hid0 : t0.ID = id' := hk.get_id id' w.store t0 hg
      by_cases hii : id' = id
      · subst hii
        have ht0 : t0 = t := by
          have := hg.symm.trans hheld
          simpa using this
        subst ht0
        have heq : ({ ID := t0.ID, Text := t0.Text, Done := true } : Todo) = t0 := by
          cases t0
          simp only at ht
          simp [ht]
        rw [heq]
        cases hs : (l.store.Store t0 (l.store.Get id' w.store).2).1 with
        | some e =>
          rw [hk.store_get_failed t0 id' _ (by rw [hs]; simp), hk.get_get]
          exact hheld
        | none =>
          have := hk.store_get t0 _ hs
          rw [hid0] at this
          exact this
      · have hne : ({ ID := t0.ID, Text := t0.Text, Done := true } : Todo).ID ≠ id := by
          simp only [hid0]
          exact hii
        rw [hk.store_get_ne _ id _ hne, hk.get_get]
        exact hheld

/-- C11 (as amended): in a store keyed by ID, a todo held under `id` with `Done = true`
is still returned unchanged by `Get(id)` after every sequence of `CreateTodo`,
`ListTodos` and `MarkAsDone` operations, for every publisher, provided the ID generator
never returns `id`. -/
theorem List.steps_keep_done (l : List γ σ ε) (hk : l.store.Keyed) (id : String)
    (t : Todo) (ht : t.Done = true)
    (hfresh : ∀ g : γ, (l.idgenerator.Generate g).1 ≠ (id, none))
    (ops : Slice Op) (w : World γ σ ε) (hheld : (l.store.Get id w.store).1 = (t, none)) :
    (l.store.Get id (l.steps ops w).store).1 = (t, none) := by
  induction ops generalizing w with
  | nil => exact hheld
  | cons op ops ih =>
    exact ih (l.step op w) (List.step_keeps_done l hk id t ht hfresh op w hheld)

/-- A done todo survives creations under other IDs, listings and repeated or failing
mark-as-done calls (C11). -/
theorem List.steps_keep_done_witness :
    ((NewList (idgen.NewConstantGenerator "other") NewInMemoryStore todoEventsStub).store.Get
        "id"
        ((NewList (idgen.NewConstantGenerator "other") NewInMemoryStore todoEventsStub).steps
          [Op.CreateTodo "x", Op.ListTodos, Op.MarkAsDone "id", Op.MarkAsDone "missing",
            Op.CreateTodo "y", Op.MarkAsDone "other"]
          doneWorld).store).1 =
      ({ ID := "id", Text := "Do me", Done := true }, none) :=
  List.steps_keep_done
    (NewList (idgen.NewConstantGenerator "other") NewInMemoryStore todoEventsStub)
    NewInMemoryStore_keyed "id" { ID := "id", Text := "Do me", Done := true } rfl
    (fun _ => (by decide : (("other", none) : String × Option Error) ≠ ("id", none)))
    _ doneWorld (by decide)

/-- C11 fails as stated for an arbitrary generator: with the constant generator "id" of
the tests, `CreateTodo` overwrites the done todo held under "id" with a fresh one whose
`Done` is false. -/
theorem List.CreateTodo_reopens_done_todo :
    (testList.store.Get "id" doneWorld.store).1 =
      ({ ID := "id", Text := "Do me", Done := true }, none) ∧
    (testList.CreateTodo "again" doneWorld).1 = ("id", none) ∧
    (testList.store.Get "id" (testList.steps [Op.CreateTodo "again"] doneWorld).store).1 =
      ({ ID := "id", Text := "again", Done := false }, none) := by
  decide

/-- C12: for every ID, `NotFoundError` carrying it is a business error, its `Error()`
text is "todo not found" whatever the ID, and `Details()` is the two-element list
`["todo_id", ID]`; the same text and classification are seen through the `error`
interface. -/
theorem NotFoundError_methods (ID : String) :
    NotFoundError.IsBusinessError { ID := ID } = true ∧
    NotFoundError.Error { ID := ID } = "todo not found" ∧
    NotFoundError.Details { ID := ID } = ["todo_id", ID] ∧
    (NotFoundError.Details { ID := ID }).length = 2 ∧
    (NotFoundError.toError { ID := ID }).IsBusinessError = true ∧
    (NotFoundError.toError { ID := ID }).Error = "todo not found" :=
  ⟨rfl, rfl, rfl, rfl, rfl, rfl⟩

end todo

namespace tododriver

variable {κ : Type}

/-! ## Claims about the gRPC encoders and the GraphQL resolvers -/

theorem take_succ_set {α : Type} (out : Slice α) (i : Nat) (x : α) (h : i < out.length) :
    (out.set i x).take (i + 1) = out.take i ++ [x] := by
  induction out generalizing i with
  | nil => simp at h
  | cons a as ih =>
    cases i with
    | zero => simp
    | succ j =>
      have hj : j < as.length := by simpa using h
      simp [ih j hj]

/-- The loop overwrites the slots from `i` on with the converted todos, in order. -/
theorem fillTodos_eq (ts : Slice todo.Todo) (i : Nat) (out : Slice (Option Todo))
    (h : out.length = i + ts.length) :
    fillTodos i ts out =
      out.take i ++ ts.map (fun t => some { Id := t.ID, Text := t.Text, Done := t.Done }) := by
  induction ts generalizing i out with
  | nil =>
    have hl : out.length ≤ i := by simp at h; omega
    simp [fillTodos, List.take_of_length_le hl]
  | cons t ts ih =>
    have hi : i < out.length := by simp at h; omega
    rw [fillTodos, ih (i + 1) _ (by simp at h ⊢; omega), take_succ_set out i _ hi]
    simp

/-- C13: `encodeMarkAsDoneGRPCResponse` maps a non-nil failure that is a `todoError`
with code `codeNotFound` to (nil, status NotFound with the failure's text), any other
non-nil failure (a `todoError` with another code, or another error) to (nil, status
Internal with the failure's text), and a response without failure (`Failed()` nil, or
no `Failer` at all) to an empty `MarkAsDoneResponse` and a nil error. -/
theorem encodeMarkAsDoneGRPCResponse_cases [DecidableEq κ] (codeNotFound : κ) (value : Value) :
    (∀ msg : String,
      encodeMarkAsDoneGRPCResponse codeNotFound
          { value := value, failer := some (some (Err.todoError codeNotFound msg)) } =
        (none, some { code := codes.NotFound,
                      message := (Err.todoError codeNotFound msg).Error })) ∧
    (∀ (c : κ) (msg : String), c ≠ codeNotFound →
      encodeMarkAsDoneGRPCResponse codeNotFound
          { value := value, failer := some (some (Err.todoError c msg)) } =
        (none, some { code := codes.Internal, message := (Err.todoError c msg).Error })) ∧
    (∀ err : todo.Error,
      encodeMarkAsDoneGRPCResponse codeNotFound
          { value := value, failer := some (some (Err.plain err)) } =
        (none, some { code := codes.Internal, message := (Err.plain err : Err κ).Error })) ∧
    encodeMarkAsDoneGRPCResponse codeNotFound { value := value, failer := some none } =
      (some {}, none) ∧
    encodeMarkAsDoneGRPCResponse codeNotFound { value := value, failer := none } =
      (some {}, none) := by
  refine ⟨?_, ?_, ?_, rfl, rfl⟩
  · intro msg
    simp [encodeMarkAsDoneGRPCResponse, status.Error]
  · intro c msg hc
    simp [encodeMarkAsDoneGRPCResponse, status.Error, hc]
  · intro err
    simp [encodeMarkAsDoneGRPCResponse, status.Error]

/-- The three cases of C13 with string codes: not found, another code, a wrapped domain
error. -/
theorem encodeMarkAsDoneGRPCResponse_cases_witness :
    encodeMarkAsDoneGRPCResponse "not_found"
        { value := Value.markAsDoneResponse,
          failer := some (some (Err.todoError "not_found" "todo not found")) } =
      (none, some { code := codes.NotFound, message := "todo not found" }) ∧
    encodeMarkAsDoneGRPCResponse "not_found"
        { value := Value.markAsDoneResponse,
          failer := some (some (Err.todoError "conflict" "already done")) } =
      (none, some { code := codes.Internal, message := "already done" }) ∧
    encodeMarkAsDoneGRPCResponse "not_found"
        { value := Value.markAsDoneResponse,
          failer := some (some (Err.plain (todo.Error.withMessage
            (todo.Error.NotFoundError "id") "failed to mark todo as done"))) } =
      (none, some { code := codes.Internal,
                    message := "failed to mark todo as done: todo not found" }) :=
  ⟨(encodeMarkAsDoneGRPCResponse_cases "not_found" Value.markAsDoneResponse).1 _,
    (encodeMarkAsDoneGRPCResponse_cases "not_found" Value.markAsDoneResponse).2.1 _ _
      (by decide),
    (encodeMarkAsDoneGRPCResponse_cases "not_found" Value.markAsDoneResponse).2.2.1 _⟩

/-- C14: when the endpoint returns a non-nil error `e`, each GraphQL resolver
(`CreateTodo`, `MarkTodoAsDone`, `Todos`) hands exactly `e` to the error handler, once,
and returns its zero result ("", false, nil) with an error whose text is
"internal server error", whatever `e` is. -/
theorem resolvers_hide_endpoint_error (r : resolver κ) (handled : Slice (Err κ)) :
    (∀ (input : NewTodo) (e : Err κ),
      (r.endpoints.Create { Text := input.Text }).2 = some e →
      mutationResolver.CreateTodo r input handled =
        some (("", some (Err.plain (errors.New "internal server error"))),
          handled ++ [e])) ∧
    (∀ (id : String) (e : Err κ),
      (r.endpoints.MarkAsDone { ID := id }).2 = some e →
      mutationResolver.MarkTodoAsDone r id handled =
        some ((false, some (Err.plain (errors.New "internal server error"))),
          handled ++ [e])) ∧
    (∀ e : Err κ,
      (r.endpoints.List ()).2 = some e →
      queryResolver.Todos r handled =
        some (([], some (Err.plain (errors.New "internal server error"))),
          handled ++ [e])) ∧
    (Err.plain (errors.New "internal server error") : Err κ).Error =
      "internal server error" := by
  refine ⟨?_, ?_, ?_, rfl⟩
  · intro input e hcreate
    unfold mutationResolver.CreateTodo
    rcases h : r.endpoints.Create { Text := input.Text } with ⟨resp, err⟩
    rw [h] at hcreate
    simp only at hcreate
    subst hcreate
    simp only [h]
  · intro id e hmark
    unfold mutationResolver.MarkTodoAsDone
    rcases h : r.endpoints.MarkAsDone { ID := id } with ⟨resp, err⟩
    rw [h] at hmark
    simp only at hmark
    subst hmark
    simp only [h]
  · intro e hlist
    unfold queryResolver.Todos
    rcases h : r.endpoints.List () with ⟨resp, err⟩
    rw [h] at hlist
    simp only at hlist
    subst hlist
    simp only [h]

/-- Endpoints failing with a wrapped store error (C14): the handler gets that error, the
client gets the fixed text. -/
theorem resolvers_hide_endpoint_error_witness :
    mutationResolver.CreateTodo
        { endpoints := failingEndpoints (Err.plain (todo.Error.other "db: password" false)) }
        { Text := "My first todo" } ([] : Slice (Err String)) =
      some (("", some (Err.plain (todo.Error.other "internal server error" false))),
        [Err.plain (todo.Error.other "db: password" false)]) ∧
    mutationResolver.MarkTodoAsDone
        { endpoints := failingEndpoints (Err.plain (todo.Error.other "db: password" false)) }
        "id" ([] : Slice (Err String)) =
      some ((false, some (Err.plain (todo.Error.other "internal server error" false))),
        [Err.plain (todo.Error.other "db: password" false)]) ∧
    queryResolver.Todos
        { endpoints := failingEndpoints (Err.plain (todo.Error.other "db: password" false)) }
        ([] : Slice (Err String)) =
      some (([], some (Err.plain (todo.Error.other "internal server error" false))),
        [Err.plain (todo.Error.other "db: password" false)]) :=
  have h := resolvers_hide_endpoint_error
    { endpoints := failingEndpoints (Err.plain (todo.Error.other "db: password" false)) }
    ([] : Slice (Err String))
  ⟨h.1 { Text := "My first todo" } _ rfl, h.2.1 "id" _ rfl, h.2.2.1 _ rfl⟩

/-- C15: when the endpoint returns a nil error and a response whose `Failed()` is a
non-nil failure `f`, the resolvers `CreateTodo` and `MarkTodoAsDone` return their zero
result ("" / false) with `f` as the error and hand nothing to the error handler. -/
theorem resolvers_surface_failure (r : resolver κ) (handled : Slice (Err κ)) :
    (∀ (input : NewTodo) (v : Value) (f : Err κ),
      r.endpoints.Create { Text := input.Text } =
        ({ value := v, failer := some (some f) }, none) →
      mutationResolver.CreateTodo r input handled = some (("", some f), handled)) ∧
    (∀ (id : String) (v : Value) (f : Err κ),
      r.endpoints.MarkAsDone { ID := id } =
        ({ value := v, failer := some (some f) }, none) →
      mutationResolver.MarkTodoAsDone r id handled = some ((false, some f), handled)) := by
  constructor
  · intro input v f hcreate
    simp [mutationResolver.CreateTodo, hcreate]
  · intro id v f hmark
    simp [mutationResolver.MarkTodoAsDone, hmark]

/-- Responses carrying a not-found failure (C15). -/
theorem resolvers_surface_failure_witness :
    mutationResolver.CreateTodo
        { endpoints := respondingEndpoints
            { value := Value.createTodoResponse "",
              failer := some (some (Err.todoError "not_found" "todo not found")) }
            { value := Value.nil, failer := none }
            { value := Value.markAsDoneResponse,
              failer := some (some (Err.todoError "not_found" "todo not found")) } }
        { Text := "My first todo" } [] =
      some (("", some (Err.todoError "not_found" "todo not found")), []) ∧
    mutationResolver.MarkTodoAsDone
        { endpoints := respondingEndpoints
            { value := Value.createTodoResponse "",
              failer := some (some (Err.todoError "not_found" "todo not found")) }
            { value := Value.nil, failer := none }
            { value := Value.markAsDoneResponse,
              failer := some (some (Err.todoError "not_found" "todo not found")) } }
        "id" [] =
      some ((false, some (Err.todoError "not_found" "todo not found")), []) :=
  ⟨(resolvers_surface_failure _ []).1 { Text := "My first todo" } _ _ rfl,
    (resolvers_surface_failure _ []).2 "id" _ _ rfl⟩

/-- C16: for every list of todos in a `listTodosResponse`, `encodeListTodosGRPCResponse`
returns a nil error and a `ListTodosResponse` whose `Todos` are the converted input
todos in order: same length, and element `i` is a non-nil pointer whose `Id`, `Text`
and `Done` are the `ID`, `Text` and `Done` of input todo `i`; the empty list gives an
empty collection and no error. -/
theorem encodeListTodosGRPCResponse_maps (todos : Slice todo.Todo)
    (failer : Option (Option (Err κ))) :
    encodeListTodosGRPCResponse { value := Value.listTodosResponse todos, failer := failer } =
      some
        ({ Todos :=
            todos.map (fun t => some { Id := t.ID, Text := t.Text, Done := t.Done }) },
          none) ∧
    (encodeListTodosGRPCResponse
        { value := Value.listTodosResponse todos, failer := failer }).map
      (fun p => p.1.Todos.length) = some todos.length ∧
    (∀ i : Nat,
      (encodeListTodosGRPCResponse
          { value := Value.listTodosResponse todos, failer := failer }).map
        (fun p => p.1.Todos[i]?) =
      some (todos[i]?.map (fun t => some { Id := t.ID, Text := t.Text, Done := t.Done }))) ∧
    encodeListTodosGRPCResponse
        ({ value := Value.listTodosResponse [], failer := failer } : Response κ) =
      some ({ Todos := [] }, none) := by
  have h : encodeListTodosGRPCResponse
      { value := Value.listTodosResponse todos, failer := failer } =
      some
        ({ Todos :=
            todos.map (fun t => some { Id := t.ID, Text := t.Text, Done := t.Done }) },
          none) := by
    simp only [encodeListTodosGRPCResponse]
    rw [fillTodos_eq todos 0 _ (by simp)]
    simp
  refine ⟨h, ?_, ?_, rfl⟩
  · rw [h]
    simp
  · intro i
    rw [h]
    simp

end tododriver

namespace tododriver

/-- C18 at its failing input: the endpoint succeeds with a response whose type
implements `Failer` and whose `Failed()` is nil.  `MarkTodoAsDone` returns (false, nil)
and `CreateTodo` returns ("", nil), although the response carries the ID "id"; the gRPC
encoder treats the same response as a success. -/
theorem resolvers_nil_failure_not_success :
    mutationResolver.MarkTodoAsDone
        { endpoints := respondingEndpoints
            { value := Value.createTodoResponse "id", failer := some none }
            { value := Value.listTodosResponse [], failer := none }
            { value := Value.markAsDoneResponse, failer := some none } }
        "id" ([] : Slice (Err String)) =
      some ((false, none), []) ∧
    mutationResolver.CreateTodo
        { endpoints := respondingEndpoints
            { value := Value.createTodoResponse "id", failer := some none }
            { value := Value.listTodosResponse [], failer := none }
            { value := Value.markAsDoneResponse, failer := some none } }
        { Text := "My first todo" } ([] : Slice (Err String)) =
      some (("", none), []) ∧
    encodeMarkAsDoneGRPCResponse "not_found"
        ({ value := Value.markAsDoneResponse, failer := some none } : Response String) =
      (some {}, none) := by
  decide

end tododriver

namespace todoadapter

/-! ## Round trip of the event wire format -/

theorem hexVal_hexDigit (k : Nat) (h : k < 16) : hexVal (hexDigit k) = some k := by
  interval_cases k <;> decide

theorem hex4_control (n : Nat) (h : n < 32) :
    hex4 '0' '0' (hexDigit (n / 16)) (hexDigit (n % 16)) = some n := by
  have h1 : hexVal (hexDigit (n / 16)) = some (n / 16) := hexVal_hexDigit _ (by omega)
  have h2 : hexVal (hexDigit (n % 16)) = some (n % 16) := hexVal_hexDigit _ (by omega)
  have h0 : hexVal '0' = some 0 := by decide
  simp only [hex4, h0, h1, h2]
  congr 1
  omega

/-- Reading back one escaped character yields that character. -/
theorem readString_escapeChar (c : Char) (cs s r : Slice Char)
    (h : readString cs = some (s, r)) :
    readString (escapeChar c ++ cs) = some (c :: s, r) := by
  have hbq : backslash ≠ dquote := by decide
  have hqu : dquote ≠ 'u' := by decide
  have hbu : backslash ≠ 'u' := by decide
  unfold escapeChar
  by_cases hq : c = dquote
  · subst hq
    rw [if_pos rfl, readString.eq_def]
    simp [hbq, hqu, simpleEscape, h]
  · by_cases hb : c = backslash
    · subst hb
      rw [if_neg hq, if_pos rfl, readString.eq_def]
      simp [hbq, hbu, simpleEscape, h]
    · by_cases hc : c.toNat < 32
      · rw [if_neg hq, if_neg hb, if_pos hc, readString.eq_def]
        simp [hbq, hex4_control c.toNat hc, h, Char.ofNat_toNat]
      · rw [if_neg hq, if_neg hb, if_neg hc, readString.eq_def]
        simp [hq, hb, h]

/-- Reading back an escaped string up to its closing quote yields the string. -/
theorem readString_escape (s rest : Slice Char) :
    readString (escape s ++ dquote :: rest) = some (s, rest) := by
  induction s with
  | nil =>
    rw [readString.eq_def]
    simp [escape]
  | cons c cs ih =>
    simp only [escape, List.append_assoc]
    exact readString_escapeChar c _ cs rest ih

/-- C17: for every string `x`, deserialising the payload that serialising
`MarkedAsDone{ID: x}` produces (a JSON object with the single field "ID") yields
`MarkedAsDone{ID: x}`; for "id" the payload is the JSON object with "ID" set to "id". -/
theorem unmarshal_marshal (x : String) :
    unmarshal (marshal { ID := x }) = some { ID := x } ∧
    marshal { ID := "id" } = "\x7b\"ID\":\"id\"\x7d".data := by
  refine ⟨?_, by decide⟩
  simp only [marshal, unmarshal, List.cons_append, List.nil_append, and_self, if_true]
  have h := readString_escape x.data [rbrace]
  simp only [List.cons_append, List.nil_append] at h ⊢
  rw [h]
  simp

end todoadapter

namespace cmd

variable {L D R J : Type}

/-! ## Claims about `Config.Validate` -/

/-- C19: `Validate` returns nil exactly when `Environment`, `MaintenanceAddr` and
`HTTPAddr` are non-empty, the Log, Database and Redis sub-configurations validate and,
when `JaegerEnabled`, the Jaeger one does; with `JaegerEnabled` false the result does
not depend on the Jaeger configuration or its validator; the first failing check, in
the order environment, maintenance address, HTTP address, Log, Database, Redis, Jaeger,
determines the error; and the defaults of `NewConfig` pass the three required-field
checks and leave Jaeger disabled. -/
theorem Config.Validate_spec (v : Validators L D R J) (c : Config L D R J) :
    (c.Validate v = none ↔
      c.Environment ≠ "" ∧ c.MaintenanceAddr ≠ "" ∧ c.HTTPAddr ≠ "" ∧
      v.Log c.Log = none ∧ v.Database c.Database = none ∧ v.Redis c.Redis = none ∧
      (c.JaegerEnabled = true → v.Jaeger c.Jaeger = none)) ∧
    (c.JaegerEnabled = false → ∀ (jaegerValidate : J → Option todo.Error) (jaeger : J),
      Config.Validate { v with Jaeger := jaegerValidate } { c with Jaeger := jaeger } =
        c.Validate v) ∧
    (c.Environment = "" → c.Validate v = some (errors.New "environment is required")) ∧
    (c.Environment ≠ "" → c.MaintenanceAddr = "" →
      c.Validate v = some (errors.New "maintenance http server address is required")) ∧
    (c.Environment ≠ "" → c.MaintenanceAddr ≠ "" → c.HTTPAddr = "" →
      c.Validate v = some (errors.New "http server address is required")) ∧
    (c.Environment ≠ "" → c.MaintenanceAddr ≠ "" → c.HTTPAddr ≠ "" →
      ∀ e : todo.Error,
        (v.Log c.Log = some e → c.Validate v = some e) ∧
        (v.Log c.Log = none → v.Database c.Database = some e → c.Validate v = some e) ∧
        (v.Log c.Log = none → v.Database c.Database = none → v.Redis c.Redis = some e →
          c.Validate v = some e) ∧
        (v.Log c.Log = none → v.Database c.Database = none → v.Redis c.Redis = none →
          c.JaegerEnabled = true → v.Jaeger c.Jaeger = some e → c.Validate v = some e)) ∧
    (∀ (logConfig : L) (databaseConfig : D) (redisConfig : R) (jaegerZero : J),
      (NewConfig logConfig databaseConfig redisConfig jaegerZero).Environment ≠ "" ∧
      (NewConfig logConfig databaseConfig redisConfig jaegerZero).MaintenanceAddr ≠ "" ∧
      (NewConfig logConfig databaseConfig redisConfig jaegerZero).HTTPAddr ≠ "" ∧
      (NewConfig logConfig databaseConfig redisConfig jaegerZero).JaegerEnabled = false ∧
      ((NewConfig logConfig databaseConfig redisConfig jaegerZero).Validate v = none ↔
        v.Log logConfig = none ∧ v.Database databaseConfig = none ∧
          v.Redis redisConfig = none)) := by
  refine ⟨?_, ?_, ?_, ?_, ?_, ?_, ?_⟩
  · by_cases h1 : c.Environment = "" <;> by_cases h2 : c.MaintenanceAddr = "" <;>
      by_cases h3 : c.HTTPAddr = "" <;> cases hl : v.Log c.Log <;>
      cases hd : v.Database c.Database <;> cases hr : v.Redis c.Redis <;>
      cases hj : c.JaegerEnabled <;> cases hv : v.Jaeger c.Jaeger <;>
      simp [Config.Validate, h1, h2, h3, hl, hd, hr, hj, hv]
  · intro hj jv j
    simp [Config.Validate, hj]
  · intro h1
    simp [Config.Validate, h1]
  · intro h1 h2
    simp [Config.Validate, h1, h2]
  · intro h1 h2 h3
    simp [Config.Validate, h1, h2, h3]
  · intro h1 h2 h3 e
    refine ⟨?_, ?_, ?_, ?_⟩
    · intro hl
      simp [Config.Validate, h1, h2, h3, hl]
    · intro hl hd
      simp [Config.Validate, h1, h2, h3, hl, hd]
    · intro hl hd hr
      simp [Config.Validate, h1, h2, h3, hl, hd, hr]
    · intro hl hd hr hj hv
      simp [Config.Validate, h1, h2, h3, hl, hd, hr, hj, hv]
  · intro a b r j
    refine ⟨?_, ?_, ?_, rfl, ?_⟩
    · show ("production" : String) ≠ ""
      decide
    · show (":10000" : String) ≠ ""
      decide
    · show (":8000" : String) ≠ ""
      decide
    cases hl : v.Log a <;> cases hd : v.Database b <;> cases hr : v.Redis r <;>
      simp [Config.Validate, NewConfig, hl, hd, hr]

/-- Concrete configurations for C19: the defaults validate; an empty environment wins
over an empty HTTP address and a failing Log; a failing Database wins over a failing
Redis; a failing Jaeger configuration matters only when Jaeger is enabled. -/
theorem Config.Validate_spec_witness :
    (NewConfig true true true false).Validate flagValidators = none ∧
    Config.Validate flagValidators
        { NewConfig false true true true with Environment := "", HTTPAddr := "" } =
      some (errors.New "environment is required") ∧
    Config.Validate flagValidators
        { NewConfig true true true true with MaintenanceAddr := "", HTTPAddr := "" } =
      some (errors.New "maintenance http server address is required") ∧
    Config.Validate flagValidators { NewConfig false false true true with HTTPAddr := "" } =
      some (errors.New "http server address is required") ∧
    Config.Validate flagValidators (NewConfig true false false true) =
      some (errors.New "invalid database config") ∧
    Config.Validate flagValidators
        { NewConfig true true true false with JaegerEnabled := true } =
      some (errors.New "invalid jaeger config") ∧
    Config.Validate flagValidators
        { NewConfig true true true false with JaegerEnabled := false } = none :=
  ⟨((Config.Validate_spec flagValidators (NewConfig true true true false)).1).2
      (by decide),
    (Config.Validate_spec flagValidators _).2.2.1 rfl,
    (Config.Validate_spec flagValidators _).2.2.2.1 (by decide) rfl,
    (Config.Validate_spec flagValidators _).2.2.2.2.1 (by decide) (by decide) rfl,
    ((Config.Validate_spec flagValidators _).2.2.2.2.2.1 (by decide) (by decide) (by decide)
      _).2.1 rfl rfl,
    ((Config.Validate_spec flagValidators _).2.2.2.2.2.1 (by decide) (by decide) (by decide)
      _).2.2.2 rfl rfl rfl rfl rfl,
    by decide⟩

end cmd
